import Mathlib

/-!
# Verification of the finance-backend reporting core

Shallow embedding of the report-generation and budget/goal-progress logic of
`src/financas/backend` (files `reports/generators.py`, `budgets/controllers.py`,
`goals/controllers.py`, `utils/date-helpers.py`), together with theorems that
settle the frozen claims about it.

Monetary values are modelled as rationals; calendar dates as proleptic
Gregorian year/month/day triples with Python's `date.toordinal` day count.
Python expressions that can raise (`ZeroDivisionError`, `ValueError` from
`datetime.date` construction) are modelled with `Option`.
-/

set_option maxHeartbeats 1600000
set_option maxRecDepth 4000

namespace Fin2

/-! ## Calendar model (mirrors Python `datetime.date`) -/

/-- A proleptic Gregorian calendar date, as in Python `datetime.date`. -/
structure PDate where
  year : Nat
  month : Nat
  day : Nat
  deriving DecidableEq, Repr

/-- Gregorian leap-year rule (Python `calendar.isleap`). -/
def isLeap (y : Nat) : Bool :=
  (y % 4 == 0 && y % 100 != 0) || (y % 400 == 0)

/-- Number of days in a month (Python `calendar.monthrange(y, m)[1]`). -/
def daysInMonth (y m : Nat) : Nat :=
  if m = 2 then (if isLeap y then 29 else 28)
  else if m = 4 ∨ m = 6 ∨ m = 9 ∨ m = 11 then 30
  else 31

/-- Validity of a date: what Python `datetime.date(y, m, d)` accepts
(we do not bound the year above). -/
def PDate.Valid (d : PDate) : Prop :=
  1 ≤ d.year ∧ 1 ≤ d.month ∧ d.month ≤ 12 ∧ 1 ≤ d.day ∧ d.day ≤ daysInMonth d.year d.month

instance (d : PDate) : Decidable d.Valid := by
  unfold PDate.Valid; infer_instance

/-- Cumulative days before the first of a month, within one year. -/
def daysBeforeMonth (y m : Nat) : Nat :=
  (match m with
   | 1 => 0 | 2 => 31 | 3 => 59 | 4 => 90 | 5 => 120 | 6 => 151
   | 7 => 181 | 8 => 212 | 9 => 243 | 10 => 273 | 11 => 304 | _ => 334)
  + (if 3 ≤ m then (if isLeap y then 1 else 0) else 0)

/-- Python `date.toordinal`: day number with 0001-01-01 ↦ 1. -/
def toOrdinal (d : PDate) : Nat :=
  365 * (d.year - 1) + (d.year - 1) / 4 - (d.year - 1) / 100 + (d.year - 1) / 400
    + daysBeforeMonth d.year d.month + d.day

/-- The day after (`d + timedelta(days=1)`). -/
def succDay (d : PDate) : PDate :=
  if d.day < daysInMonth d.year d.month then ⟨d.year, d.month, d.day + 1⟩
  else if d.month < 12 then ⟨d.year, d.month + 1, 1⟩
  else ⟨d.year + 1, 1, 1⟩

/-- The day before (`d - timedelta(days=1)`). -/
def predDay (d : PDate) : PDate :=
  if 1 < d.day then ⟨d.year, d.month, d.day - 1⟩
  else if 1 < d.month then ⟨d.year, d.month - 1, daysInMonth d.year (d.month - 1)⟩
  else ⟨d.year - 1, 12, 31⟩

/-- `d + timedelta(days=n)`. -/
def addDays (d : PDate) (n : Nat) : PDate := succDay^[n] d

/-- `d - timedelta(days=n)`. -/
def subDays (d : PDate) (n : Nat) : PDate := predDay^[n] d

/-- Python `date.weekday()`: Monday = 0. -/
def weekday (d : PDate) : Nat := (toOrdinal d - 1) % 7

theorem daysInMonth_pos (y m : Nat) : 1 ≤ daysInMonth y m := by
  unfold daysInMonth
  split
  · split <;> omega
  · split <;> omega

theorem daysInMonth_le_31 (y m : Nat) : daysInMonth y m ≤ 31 := by
  unfold daysInMonth
  split
  · split <;> omega
  · split <;> omega

theorem daysBeforeMonth_succ (y m : Nat) (h1 : 1 ≤ m) (h2 : m ≤ 11) :
    daysBeforeMonth y (m + 1) = daysBeforeMonth y m + daysInMonth y m := by
  interval_cases m <;>
    cases h : isLeap y <;>
      simp [daysBeforeMonth, daysInMonth, h]

theorem toOrdinal_pos (d : PDate) (h : d.Valid) : 1 ≤ toOrdinal d := by
  obtain ⟨_, _, _, _, _⟩ := h
  unfold toOrdinal; omega

theorem toOrdinal_mk (y m d : Nat) :
    toOrdinal ⟨y, m, d⟩ =
      365 * (y - 1) + (y - 1) / 4 - (y - 1) / 100 + (y - 1) / 400
        + daysBeforeMonth y m + d := rfl

theorem daysBeforeMonth_one (y : Nat) : daysBeforeMonth y 1 = 0 := rfl

theorem daysBeforeMonth_twelve (y : Nat) :
    daysBeforeMonth y 12 = 334 + (if isLeap y then 1 else 0) := rfl

theorem daysInMonth_twelve (y : Nat) : daysInMonth y 12 = 31 := rfl

theorem succDay_valid (d : PDate) (h : d.Valid) : (succDay d).Valid := by
  obtain ⟨h1, h2, h3, h4, h5⟩ := h
  unfold succDay
  split
  · rename_i hlt
    exact ⟨h1, h2, h3, by show 1 ≤ d.day + 1; omega,
      by show d.day + 1 ≤ daysInMonth d.year d.month; omega⟩
  · split
    · rename_i hm
      exact ⟨h1, by show 1 ≤ d.month + 1; omega, by show d.month + 1 ≤ 12; omega,
        le_refl 1, daysInMonth_pos _ _⟩
    · exact ⟨by show 1 ≤ d.year + 1; omega, le_refl 1, by norm_num, le_refl 1,
        daysInMonth_pos _ _⟩

theorem isLeap_iff (y : Nat) :
    isLeap y = true ↔ ((y % 4 = 0 ∧ y % 100 ≠ 0) ∨ y % 400 = 0) := by
  simp [isLeap, Bool.or_eq_true, Bool.and_eq_true, beq_iff_eq, bne_iff_ne]

theorem toOrdinal_succDay (d : PDate) (h : d.Valid) :
    toOrdinal (succDay d) = toOrdinal d + 1 := by
  obtain ⟨y, m, dd⟩ := d
  obtain ⟨h1, h2, h3, h4, h5⟩ := h
  simp only at h1 h2 h3 h4 h5
  unfold succDay
  split
  · unfold toOrdinal; simp; omega
  · rename_i hd
    simp only at hd
    split
    · rename_i hm
      simp only at hm
      have hb := daysBeforeMonth_succ y m h2 (by omega)
      unfold toOrdinal
      simp only
      omega
    · rename_i hm
      simp only at hm
      have hm12 : m = 12 := by omega
      subst hm12
      have hd31 : dd = 31 := by
        have := daysInMonth_twelve y
        omega
      subst hd31
      show toOrdinal ⟨y + 1, 1, 1⟩ = toOrdinal ⟨y, 12, 31⟩ + 1
      rw [toOrdinal_mk, toOrdinal_mk]
      simp only [daysBeforeMonth_one, daysBeforeMonth_twelve]
      have hiff := isLeap_iff y
      cases hly : isLeap y with
      | false =>
        rw [hly] at hiff
        simp only [Bool.false_eq_true, false_iff] at hiff
        rw [if_neg (by simp [hly])]
        omega
      | true =>
        rw [hly] at hiff
        simp only [true_iff] at hiff
        rw [if_pos (by simp [hly])]
        omega

theorem addDays_spec (d : PDate) (n : Nat) (h : d.Valid) :
    (addDays d n).Valid ∧ toOrdinal (addDays d n) = toOrdinal d + n := by
  induction n with
  | zero => simpa [addDays] using h
  | succ k ih =>
    have hstep : addDays d (k + 1) = succDay (addDays d k) := by
      simp [addDays, Function.iterate_succ_apply']
    rw [hstep]
    exact ⟨succDay_valid _ ih.1, by rw [toOrdinal_succDay _ ih.1, ih.2]; omega⟩

theorem predDay_valid (d : PDate) (h : d.Valid) (h2 : 2 ≤ toOrdinal d) :
    (predDay d).Valid := by
  obtain ⟨y, m, dd⟩ := d
  obtain ⟨v1, v2, v3, v4, v5⟩ := h
  simp only at v1 v2 v3 v4 v5 h2
  unfold predDay
  split
  · rename_i hd
    simp only at hd
    exact ⟨v1, v2, v3, by show 1 ≤ dd - 1; omega,
      by show dd - 1 ≤ daysInMonth y m; omega⟩
  · split
    · rename_i hd hm
      simp only at hd hm
      exact ⟨v1, by show 1 ≤ m - 1; omega, by show m - 1 ≤ 12; omega,
        daysInMonth_pos _ _, le_refl _⟩
    · rename_i hd hm
      simp only at hd hm
      have hm1 : m = 1 := by omega
      have hd1 : dd = 1 := by omega
      subst hm1 hd1
      have hy : 2 ≤ y := by
        by_contra hy
        have hy1 : y = 1 := by omega
        subst hy1
        simp [toOrdinal, daysBeforeMonth] at h2
      exact ⟨by show 1 ≤ y - 1; omega, by norm_num, by norm_num, by norm_num,
        by show (31 : Nat) ≤ daysInMonth (y - 1) 12; simp [daysInMonth]⟩

theorem toOrdinal_predDay (d : PDate) (h : d.Valid) (h2 : 2 ≤ toOrdinal d) :
    toOrdinal (predDay d) = toOrdinal d - 1 := by
  obtain ⟨y, m, dd⟩ := d
  obtain ⟨v1, v2, v3, v4, v5⟩ := h
  simp only at v1 v2 v3 v4 v5 h2
  unfold predDay
  split
  · rename_i hd
    simp only at hd
    unfold toOrdinal; simp; omega
  · split
    · rename_i hd hm
      simp only at hd hm
      have hb := daysBeforeMonth_succ y (m - 1) (by omega) (by omega)
      have hmm : m - 1 + 1 = m := by omega
      rw [hmm] at hb
      unfold toOrdinal
      simp only
      omega
    · rename_i hd hm
      simp only at hd hm
      have hm1 : m = 1 := by omega
      have hd1 : dd = 1 := by omega
      subst hm1 hd1
      have hy : 2 ≤ y := by
        by_contra hy
        have hy1 : y = 1 := by omega
        subst hy1
        simp [toOrdinal, daysBeforeMonth] at h2
      show toOrdinal ⟨y - 1, 12, daysInMonth (y - 1) 12⟩ = toOrdinal ⟨y, 1, 1⟩ - 1
      rw [toOrdinal_mk, toOrdinal_mk]
      simp only [daysBeforeMonth_one, daysBeforeMonth_twelve, daysInMonth_twelve]
      have hiff := isLeap_iff (y - 1)
      cases hly : isLeap (y - 1) with
      | false =>
        rw [hly] at hiff
        simp only [Bool.false_eq_true, false_iff] at hiff
        rw [if_neg (by simp [hly])]
        omega
      | true =>
        rw [hly] at hiff
        simp only [true_iff] at hiff
        rw [if_pos (by simp [hly])]
        omega

theorem subDays_spec (d : PDate) (n : Nat) (h : d.Valid) (hn : n + 1 ≤ toOrdinal d) :
    (subDays d n).Valid ∧ toOrdinal (subDays d n) = toOrdinal d - n := by
  induction n with
  | zero => simpa [subDays] using h
  | succ k ih =>
    have ihs := ih (by omega)
    have hstep : subDays d (k + 1) = predDay (subDays d k) := by
      simp [subDays, Function.iterate_succ_apply']
    rw [hstep]
    have hord : 2 ≤ toOrdinal (subDays d k) := by omega
    exact ⟨predDay_valid _ ihs.1 hord, by rw [toOrdinal_predDay _ ihs.1 hord, ihs.2]; omega⟩

attribute [irreducible] subDays

end Fin2

namespace Fin2

/-! ## Date-range resolver (`get_date_range`, utils/date-helpers.py lines 69-133) -/

/-- Inclusive length of a date interval in days (`(end - start).days + 1`). -/
def rangeLen (s e : PDate) : Nat := toOrdinal e + 1 - toOrdinal s

/-- Embedding of `get_date_range`.  The reference date is assumed already
converted to a plain date (the Python function accepts a datetime too and
takes `.date()`).  The result is `none` when the Python code raises: for
period `"all"` with `ref.year ≤ 10`, `ref_date - relativedelta(years=10)`
builds a `date` whose year is below `date.MINYEAR`, a `ValueError`.
`relativedelta` clamps the day to the target month's length (Feb 29 cases). -/
def get_date_range (period : String) (ref : PDate) : Option (PDate × PDate) :=
  if period = "day" then some (ref, ref)
  else if period = "week" then
    let start := subDays ref (weekday ref)
    some (start, addDays start 6)
  else if period = "month" then
    some (⟨ref.year, ref.month, 1⟩, ⟨ref.year, ref.month, daysInMonth ref.year ref.month⟩)
  else if period = "quarter" then
    let quarter := (ref.month - 1) / 3
    let firstMonth := quarter * 3 + 1
    let lastMonth := firstMonth + 2
    some (⟨ref.year, firstMonth, 1⟩, ⟨ref.year, lastMonth, daysInMonth ref.year lastMonth⟩)
  else if period = "year" then
    some (⟨ref.year, 1, 1⟩, ⟨ref.year, 12, 31⟩)
  else if period = "all" then
    if ref.year ≤ 10 then none
    else some (⟨ref.year - 10, ref.month, min ref.day (daysInMonth (ref.year - 10) ref.month)⟩, ref)
  else
    some (⟨ref.year, ref.month, 1⟩, ⟨ref.year, ref.month, daysInMonth ref.year ref.month⟩)

theorem daysInMonth_ge_28 (y m : Nat) : 28 ≤ daysInMonth y m := by
  unfold daysInMonth
  split
  · split <;> omega
  · split <;> omega

theorem daysBeforeMonth_le_335 (y m : Nat) : daysBeforeMonth y m ≤ 335 := by
  unfold daysBeforeMonth
  rcases m with _|_|_|_|_|_|_|_|_|_|_|_|m <;>
    cases h : isLeap y <;>
      simp [h]

theorem week_range_helper (ref : PDate) (h : ref.Valid) :
    toOrdinal (subDays ref (weekday ref)) ≤
        toOrdinal (addDays (subDays ref (weekday ref)) 6) ∧
      rangeLen (subDays ref (weekday ref)) (addDays (subDays ref (weekday ref)) 6) = 7 ∧
      weekday (subDays ref (weekday ref)) = 0 ∧
      toOrdinal ref ≤ toOrdinal (addDays (subDays ref (weekday ref)) 6) := by
  have hord := toOrdinal_pos ref h
  have hmod : weekday ref ≤ toOrdinal ref - 1 := Nat.mod_le _ _
  obtain ⟨hv, he⟩ := subDays_spec ref (weekday ref) h (by omega)
  obtain ⟨hv2, he2⟩ := addDays_spec (subDays ref (weekday ref)) 6 hv
  have hwd : weekday ref ≤ 6 := by unfold weekday; omega
  refine ⟨by omega, by unfold rangeLen; omega, ?_, by omega⟩
  show (toOrdinal (subDays ref (weekday ref)) - 1) % 7 = 0
  rw [he]
  unfold weekday
  omega

theorem month_range_helper (y m : Nat) :
    toOrdinal ⟨y, m, 1⟩ ≤ toOrdinal ⟨y, m, daysInMonth y m⟩ ∧
      28 ≤ rangeLen ⟨y, m, 1⟩ ⟨y, m, daysInMonth y m⟩ ∧
      rangeLen ⟨y, m, 1⟩ ⟨y, m, daysInMonth y m⟩ ≤ 31 := by
  have h28 := daysInMonth_ge_28 y m
  have h31 := daysInMonth_le_31 y m
  unfold rangeLen
  rw [toOrdinal_mk, toOrdinal_mk]
  omega

theorem quarter_range_helper (y m : Nat) (h1 : 1 ≤ m) (h12 : m ≤ 12) :
    toOrdinal ⟨y, (m - 1) / 3 * 3 + 1, 1⟩ ≤
        toOrdinal ⟨y, (m - 1) / 3 * 3 + 1 + 2, daysInMonth y ((m - 1) / 3 * 3 + 1 + 2)⟩ ∧
      90 ≤ rangeLen ⟨y, (m - 1) / 3 * 3 + 1, 1⟩
          ⟨y, (m - 1) / 3 * 3 + 1 + 2, daysInMonth y ((m - 1) / 3 * 3 + 1 + 2)⟩ ∧
      rangeLen ⟨y, (m - 1) / 3 * 3 + 1, 1⟩
          ⟨y, (m - 1) / 3 * 3 + 1 + 2, daysInMonth y ((m - 1) / 3 * 3 + 1 + 2)⟩ ≤ 92 := by
  have hq : (m - 1) / 3 = 0 ∨ (m - 1) / 3 = 1 ∨ (m - 1) / 3 = 2 ∨ (m - 1) / 3 = 3 := by
    omega
  unfold rangeLen
  rcases hq with hq | hq | hq | hq <;>
    rw [hq] <;>
      norm_num <;>
        rw [toOrdinal_mk, toOrdinal_mk] <;>
          cases hly : isLeap y <;>
            simp [daysBeforeMonth, daysInMonth, hly] <;>
              omega

theorem year_range_helper (y : Nat) :
    toOrdinal ⟨y, 1, 1⟩ ≤ toOrdinal ⟨y, 12, 31⟩ ∧
      (rangeLen ⟨y, 1, 1⟩ ⟨y, 12, 31⟩ = 365 ∨ rangeLen ⟨y, 1, 1⟩ ⟨y, 12, 31⟩ = 366) := by
  unfold rangeLen
  rw [toOrdinal_mk, toOrdinal_mk]
  cases hly : isLeap y <;>
    simp [daysBeforeMonth, hly]

theorem all_range_helper (y m dd : Nat) (hy : 11 ≤ y) :
    toOrdinal ⟨y - 10, m, min dd (daysInMonth (y - 10) m)⟩ ≤ toOrdinal ⟨y, m, dd⟩ := by
  have h335 := daysBeforeMonth_le_335 (y - 10) m
  have hmin : min dd (daysInMonth (y - 10) m) ≤ dd := Nat.min_le_left _ _
  rw [toOrdinal_mk, toOrdinal_mk]
  omega

/-- Transaction type: the two enumerated values of `Transaction.type`. -/
inductive TType where
  | income
  | expense
  deriving DecidableEq, Repr

/-- A ledger entry (`transactions/models.py`, fields used by the reporting
core). -/
structure Txn where
  user_id : Nat
  type : TType
  amount : ℚ
  date : PDate
  category_id : Nat
  is_recurring : Bool
  deriving DecidableEq, Repr

/-- SQL filter `date >= s AND date <= e` (dates compare chronologically). -/
def inWindow (t : Txn) (s e : PDate) : Bool :=
  decide (toOrdinal s ≤ toOrdinal t.date) && decide (toOrdinal t.date ≤ toOrdinal e)

/-- One entry of the `category_totals` dict: id, the type of the first
transaction seen for the category, and the accumulated total. -/
structure CatTotal where
  id : Nat
  type : TType
  total : ℚ
  deriving DecidableEq, Repr

/-- One step of the `category_totals` accumulation loop (lines 48-60): a new
category id appends a bucket initialised to the transaction's type with total
0, then the amount is added; an existing id gets the amount added in place. -/
def addToBuckets : List CatTotal → Txn → List CatTotal
  | [], t => [⟨t.category_id, t.type, t.amount⟩]
  | b :: bs, t =>
    if b.id = t.category_id then { b with total := b.total + t.amount } :: bs
    else b :: addToBuckets bs t

/-- `sorted(key=total, reverse=True)` comparison. -/
def catTotalGe (a b : CatTotal) : Prop := b.total ≤ a.total

instance : DecidableRel catTotalGe := fun a b => by
  unfold catTotalGe; infer_instance

/-- The savings-rate expression, identical at its two call sites
(generators.py line 86 and line 247):
`(income - expense) / income * 100 if income > 0 else 0`. -/
def savingsRate (income expense : ℚ) : ℚ :=
  if income > 0 then (income - expense) / income * 100 else 0

/-- The fields of the record returned by `generate_summary_report`. -/
structure SummaryReport where
  days : Int
  income : ℚ
  expense : ℚ
  balance : ℚ
  savings_rate : ℚ
  avg_daily_income : ℚ
  avg_daily_expense : ℚ
  categories_income : List CatTotal
  categories_expense : List CatTotal
  transaction_count : Nat
  deriving Repr

/-- The body of `generate_summary_report` after the date checks
(generators.py lines 32-98). -/
def summaryReportCore (u : Nat) (s e : PDate) (txns : List Txn) : SummaryReport :=
  let ts := txns.filter (fun t => t.user_id == u && inWindow t s e)
  let income := ((ts.filter (fun t => t.type == TType.income)).map Txn.amount).sum
  let expense := ((ts.filter (fun t => t.type == TType.expense)).map Txn.amount).sum
  let buckets := ts.foldl addToBuckets []
  let days : Int := (toOrdinal e : Int) - (toOrdinal s : Int) + 1
  { days := days
    income := income
    expense := expense
    balance := income - expense
    savings_rate := savingsRate income expense
    avg_daily_income := if 0 < days then income / (days : ℚ) else 0
    avg_daily_expense := if 0 < days then expense / (days : ℚ) else 0
    categories_income :=
      List.insertionSort catTotalGe (buckets.filter (fun c => c.type == TType.income))
    categories_expense :=
      List.insertionSort catTotalGe (buckets.filter (fun c => c.type == TType.expense))
    transaction_count := ts.length }

/-- Result of a generator that can return `{'error': ...}`. -/
inductive GenResult (α : Type) where
  | ok (report : α)
  | error (msg : String)
  deriving Repr

/-- `generate_summary_report` (generators.py lines 11-98).  String inputs go
through `parse_date`; the arguments here are the parse results (`none` for an
unparsable string), and lines 29-30 return the error record. -/
def generate_summary_report (u : Nat) (start_date end_date : Option PDate)
    (txns : List Txn) : GenResult SummaryReport :=
  match start_date, end_date with
  | some s, some e => .ok (summaryReportCore u s e txns)
  | _, _ => .error "Invalid date format"

theorem addToBuckets_total_sum (bs : List CatTotal) (t : Txn) :
    ((addToBuckets bs t).map CatTotal.total).sum = (bs.map CatTotal.total).sum + t.amount := by
  induction bs with
  | nil => simp [addToBuckets]
  | cons b bs ih =>
    unfold addToBuckets
    split
    · simp
      ring
    · simp [ih]
      ring

theorem foldl_addToBuckets_total_sum (l : List Txn) (bs : List CatTotal) :
    ((l.foldl addToBuckets bs).map CatTotal.total).sum =
      (bs.map CatTotal.total).sum + (l.map Txn.amount).sum := by
  induction l generalizing bs with
  | nil => simp
  | cons t l ih =>
    simp only [List.foldl_cons, List.map_cons, List.sum_cons]
    rw [ih, addToBuckets_total_sum]
    ring

theorem sum_filter_bool_pair {α : Type} (f : α → ℚ) (p : α → Bool) (l : List α) :
    ((l.filter p).map f).sum + ((l.filter (fun a => !(p a))).map f).sum = (l.map f).sum := by
  induction l with
  | nil => simp
  | cons a l ih =>
    cases hp : p a <;> simp [hp] <;> linarith [ih]

theorem summaryReportCore_income (u : Nat) (s e : PDate) (txns : List Txn) :
    (summaryReportCore u s e txns).income =
      (((txns.filter (fun t => t.user_id == u && inWindow t s e)).filter
        (fun t => t.type == TType.income)).map Txn.amount).sum := rfl

theorem summaryReportCore_expense (u : Nat) (s e : PDate) (txns : List Txn) :
    (summaryReportCore u s e txns).expense =
      (((txns.filter (fun t => t.user_id == u && inWindow t s e)).filter
        (fun t => t.type == TType.expense)).map Txn.amount).sum := rfl

theorem summaryReportCore_balance (u : Nat) (s e : PDate) (txns : List Txn) :
    (summaryReportCore u s e txns).balance =
      (summaryReportCore u s e txns).income - (summaryReportCore u s e txns).expense := rfl

theorem summaryReportCore_savings_rate (u : Nat) (s e : PDate) (txns : List Txn) :
    (summaryReportCore u s e txns).savings_rate =
      savingsRate (summaryReportCore u s e txns).income
        (summaryReportCore u s e txns).expense := rfl

theorem summaryReportCore_categories_income (u : Nat) (s e : PDate) (txns : List Txn) :
    (summaryReportCore u s e txns).categories_income =
      List.insertionSort catTotalGe
        (((txns.filter (fun t => t.user_id == u && inWindow t s e)).foldl addToBuckets
          []).filter (fun c => c.type == TType.income)) := rfl

theorem summaryReportCore_categories_expense (u : Nat) (s e : PDate) (txns : List Txn) :
    (summaryReportCore u s e txns).categories_expense =
      List.insertionSort catTotalGe
        (((txns.filter (fun t => t.user_id == u && inWindow t s e)).foldl addToBuckets
          []).filter (fun c => c.type == TType.expense)) := rfl

theorem insertionSort_total_sum (l : List CatTotal) :
    ((List.insertionSort catTotalGe l).map CatTotal.total).sum =
      (l.map CatTotal.total).sum :=
  ((List.perm_insertionSort catTotalGe l).map CatTotal.total).sum_eq

/-- C7: the summary report's balance equals income minus expense, and the
per-category buckets (income list plus expense list) partition the matched
transactions: their totals sum to income plus expense. -/
theorem C7_summary_balance_and_partition (u : Nat) (s e : PDate) (txns : List Txn) :
    (summaryReportCore u s e txns).balance =
        (summaryReportCore u s e txns).income - (summaryReportCore u s e txns).expense ∧
      (((summaryReportCore u s e txns).categories_income ++
          (summaryReportCore u s e txns).categories_expense).map CatTotal.total).sum =
        (summaryReportCore u s e txns).income + (summaryReportCore u s e txns).expense := by
  refine ⟨summaryReportCore_balance u s e txns, ?_⟩
  rw [summaryReportCore_categories_income, summaryReportCore_categories_expense,
    summaryReportCore_income, summaryReportCore_expense]
  rw [List.map_append, List.sum_append, insertionSort_total_sum, insertionSort_total_sum]
  have hfeC : (fun (c : CatTotal) => c.type == TType.expense) =
      (fun c => !(c.type == TType.income)) := by
    funext c
    cases c.type <;> rfl
  have hfeT : (fun (t : Txn) => t.type == TType.expense) =
      (fun t => !(t.type == TType.income)) := by
    funext t
    cases t.type <;> rfl
  rw [hfeC, hfeT]
  rw [sum_filter_bool_pair CatTotal.total (fun c => c.type == TType.income),
    sum_filter_bool_pair Txn.amount (fun t => t.type == TType.income)]
  rw [foldl_addToBuckets_total_sum]
  simp

theorem savingsRate_bounds (inc exp : ℚ) (hexp : 0 ≤ exp) :
    savingsRate inc exp ≤ 100 ∧ (exp ≤ inc → 0 ≤ savingsRate inc exp) ∧
      (0 < inc → inc < exp → savingsRate inc exp < 0) := by
  unfold savingsRate
  split_ifs with h
  · refine ⟨?_, ?_, ?_⟩
    · rw [div_mul_eq_mul_div, div_le_iff₀ h]
      nlinarith
    · intro hle
      have : 0 ≤ (inc - exp) / inc := div_nonneg (by linarith) (le_of_lt h)
      nlinarith
    · intro _ hlt
      have : (inc - exp) / inc < 0 := div_neg_of_neg_of_pos (by linarith) h
      nlinarith
  · refine ⟨by norm_num, fun _ => le_refl 0, fun hc _ => absurd hc h⟩

/-- C8 (amended): the savings rate equals
`(income - expense) / income * 100` when `income > 0` and `0` otherwise, and
with non-negative transaction amounts it never exceeds 100 and is non-negative
whenever `expense ≤ income`; but it is NOT clamped below at 0 — it is strictly
negative whenever `0 < income < expense` (the 0-100 range claim fails).  The
general clauses apply to `savingsRate`, the expression shared by
`generate_summary_report` and `generate_monthly_report`. -/
theorem C8_savings_rate_amended (u : Nat) (s e : PDate) (txns : List Txn)
    (hpos : ∀ t ∈ txns, 0 ≤ t.amount) :
    ((summaryReportCore u s e txns).savings_rate =
        savingsRate (summaryReportCore u s e txns).income
          (summaryReportCore u s e txns).expense ∧
      (summaryReportCore u s e txns).savings_rate ≤ 100 ∧
      ((summaryReportCore u s e txns).expense ≤ (summaryReportCore u s e txns).income →
        0 ≤ (summaryReportCore u s e txns).savings_rate)) ∧
    (∀ inc exp : ℚ, 0 ≤ exp →
      (savingsRate inc exp ≤ 100 ∧ (exp ≤ inc → 0 ≤ savingsRate inc exp) ∧
        (0 < inc → inc < exp → savingsRate inc exp < 0))) := by
  have hexp : 0 ≤ (summaryReportCore u s e txns).expense := by
    rw [summaryReportCore_expense]
    apply List.sum_nonneg
    intro x hx
    obtain ⟨t, ht, rfl⟩ := List.mem_map.mp hx
    exact hpos t (List.filter_subset' _ (List.filter_subset' _ ht))
  have hb := savingsRate_bounds (summaryReportCore u s e txns).income
    (summaryReportCore u s e txns).expense hexp
  refine ⟨⟨summaryReportCore_savings_rate u s e txns, ?_, ?_⟩,
    fun inc exp hexp' => savingsRate_bounds inc exp hexp'⟩
  · rw [summaryReportCore_savings_rate]
    exact hb.1
  · intro hle
    rw [summaryReportCore_savings_rate]
    exact hb.2.1 hle

/-- C8 counterexample: with income 100 and expense 200 in the window, the
summary report's savings rate is -100, outside the claimed 0-100 range. -/
theorem C8_savings_rate_counterexample :
    (summaryReportCore 1 ⟨2024, 1, 1⟩ ⟨2024, 1, 31⟩
        [⟨1, TType.income, 100, ⟨2024, 1, 10⟩, 1, false⟩,
         ⟨1, TType.expense, 200, ⟨2024, 1, 11⟩, 2, false⟩]).savings_rate = -100 ∧
      ¬(0 ≤ (summaryReportCore 1 ⟨2024, 1, 1⟩ ⟨2024, 1, 31⟩
        [⟨1, TType.income, 100, ⟨2024, 1, 10⟩, 1, false⟩,
         ⟨1, TType.expense, 200, ⟨2024, 1, 11⟩, 2, false⟩]).savings_rate) := by
  have h : (summaryReportCore 1 ⟨2024, 1, 1⟩ ⟨2024, 1, 31⟩
      [⟨1, TType.income, 100, ⟨2024, 1, 10⟩, 1, false⟩,
       ⟨1, TType.expense, 200, ⟨2024, 1, 11⟩, 2, false⟩]).savings_rate = -100 := by
    rw [summaryReportCore_savings_rate, summaryReportCore_income, summaryReportCore_expense]
    simp [inWindow, toOrdinal, daysBeforeMonth, isLeap, savingsRate]
    norm_num
  exact ⟨h, by rw [h]; norm_num⟩

/-- C8 witness: the amended theorem applied to a concrete ledger with income
100 and expense 40, where the rate is 60 and the bounds are meaningful. -/
theorem C8_savings_rate_witness :
    (summaryReportCore 1 ⟨2024, 1, 1⟩ ⟨2024, 1, 31⟩
        [⟨1, TType.income, 100, ⟨2024, 1, 10⟩, 1, false⟩,
         ⟨1, TType.expense, 40, ⟨2024, 1, 11⟩, 2, false⟩]).savings_rate ≤ 100 ∧
      0 ≤ (summaryReportCore 1 ⟨2024, 1, 1⟩ ⟨2024, 1, 31⟩
        [⟨1, TType.income, 100, ⟨2024, 1, 10⟩, 1, false⟩,
         ⟨1, TType.expense, 40, ⟨2024, 1, 11⟩, 2, false⟩]).savings_rate := by
  have h := C8_savings_rate_amended 1 ⟨2024, 1, 1⟩ ⟨2024, 1, 31⟩
    [⟨1, TType.income, 100, ⟨2024, 1, 10⟩, 1, false⟩,
     ⟨1, TType.expense, 40, ⟨2024, 1, 11⟩, 2, false⟩] (by decide)
  refine ⟨h.1.2.1, h.1.2.2 ?_⟩
  rw [summaryReportCore_income, summaryReportCore_expense]
  simp [inWindow, toOrdinal, daysBeforeMonth, isLeap]
  norm_num

/-! ## Monthly evolution report (`generate_monthly_report`, generators.py
lines 178-324) -/

/-- One month's entry of `monthly_data`. -/
structure MonthRec where
  year : Nat
  month : Nat
  income : ℚ
  expense : ℚ
  balance : ℚ
  savings_rate : ℚ
  transaction_count : Nat
  deriving DecidableEq, Repr

/-- First day of the month after `cur` (lines 252-255, also 218-221). -/
def nextMonthFirst (cur : PDate) : PDate :=
  if cur.month = 12 then ⟨cur.year + 1, 1, 1⟩ else ⟨cur.year, cur.month + 1, 1⟩

/-- One iteration of the monthly loop (lines 213-249): aggregate the user's
transactions between the first and last day of `cur`'s month. -/
def monthRec (u : Nat) (txns : List Txn) (cur : PDate) : MonthRec :=
  let monthStart : PDate := ⟨cur.year, cur.month, 1⟩
  let monthEnd := predDay (nextMonthFirst cur)
  let ts := txns.filter (fun t => t.user_id == u && inWindow t monthStart monthEnd)
  let income := ((ts.filter (fun t => t.type == TType.income)).map Txn.amount).sum
  let expense := ((ts.filter (fun t => t.type == TType.expense)).map Txn.amount).sum
  { year := cur.year
    month := cur.month
    income := income
    expense := expense
    balance := income - expense
    savings_rate := savingsRate income expense
    transaction_count := ts.length }

/-- The `monthly_data` list: `n` consecutive months starting at `cur`. -/
def monthlyData (u : Nat) (txns : List Txn) (cur : PDate) : Nat → List MonthRec
  | 0 => []
  | n + 1 => monthRec u txns cur :: monthlyData u txns (nextMonthFirst cur) n

/-- `monthly_data[-3:]` for a list of at least 6 months. -/
def last3 (md : List MonthRec) : List MonthRec := md.drop (md.length - 3)

/-- `monthly_data[-6:-3]` for a list of at least 6 months. -/
def prev3 (md : List MonthRec) : List MonthRec := (md.drop (md.length - 6)).take 3

/-- `sum(...) / 3`, the 3-month trailing mean (lines 283-290). -/
def mean3 (l : List ℚ) : ℚ := l.sum / 3

/-- The three-way trend classification expression
`'up' if change > 5 else ('down' if change < -5 else 'stable')`
(lines 295, 299, 303). -/
def trendWord (change : ℚ) : String :=
  if change > 5 then "up" else if change < -5 then "down" else "stable"

/-- The `trends` record. -/
structure Trends where
  income : String
  expense : String
  balance : String
  deriving DecidableEq, Repr

/-- Trend computation (lines 272-303): defaults to `stable`; with at least 6
months, each series is classified by the percentage change of the mean of the
last 3 months over the mean of the previous 3, guarded by `prev > 0` for
income and expense and by `prev != 0` (with an absolute-value denominator)
for balance. -/
def trendsOf (md : List MonthRec) : Trends :=
  if 6 ≤ md.length then
    let avgIncomeLast := mean3 ((last3 md).map MonthRec.income)
    let avgIncomePrev := mean3 ((prev3 md).map MonthRec.income)
    let avgExpenseLast := mean3 ((last3 md).map MonthRec.expense)
    let avgExpensePrev := mean3 ((prev3 md).map MonthRec.expense)
    let avgBalanceLast := mean3 ((last3 md).map MonthRec.balance)
    let avgBalancePrev := mean3 ((prev3 md).map MonthRec.balance)
    { income := if 0 < avgIncomePrev then
        trendWord ((avgIncomeLast - avgIncomePrev) / avgIncomePrev * 100) else "stable"
      expense := if 0 < avgExpensePrev then
        trendWord ((avgExpenseLast - avgExpensePrev) / avgExpensePrev * 100) else "stable"
      balance := if avgBalancePrev ≠ 0 then
        trendWord ((avgBalanceLast - avgBalancePrev) / |avgBalancePrev| * 100) else "stable" }
  else ⟨"stable", "stable", "stable"⟩

/-- `max(monthly_data, key=balance)` (first maximum, Python semantics). -/
def bestMonth : List MonthRec → Option MonthRec
  | [] => none
  | m :: ms => some (ms.foldl (fun b x => if b.balance < x.balance then x else b) m)

/-- `min(monthly_data, key=balance)` (first minimum, Python semantics). -/
def worstMonth : List MonthRec → Option MonthRec
  | [] => none
  | m :: ms => some (ms.foldl (fun b x => if x.balance < b.balance then x else b) m)

/-- One step of the end-date loop (lines 204-207). -/
def monthlyEndStep (e : PDate) : PDate :=
  predDay ⟨e.year + e.month / 12, e.month % 12 + 1, 1⟩

/-- The record returned by `generate_monthly_report`. -/
structure MonthlyReport where
  start_date : PDate
  end_date : PDate
  months : Nat
  total_income : ℚ
  total_expense : ℚ
  total_balance : ℚ
  avg_monthly_income : ℚ
  avg_monthly_expense : ℚ
  best_month : Option MonthRec
  worst_month : Option MonthRec
  trends : Trends
  monthly_data : List MonthRec
  deriving Repr

/-- `generate_monthly_report` (lines 178-324).  `start_month` is the result of
parsing the `YYYY-MM` input inside the `try` block: `none` models the
`ValueError`/`TypeError` path, which silently falls back to the first day of
`today`'s month minus 365 days (lines 197-200); no error record exists in
this generator. -/
def generate_monthly_report (u : Nat) (start_month : Option (Nat × Nat))
    (today : PDate) (months_count : Nat) (txns : List Txn) : MonthlyReport :=
  let start_date : PDate :=
    match start_month with
    | some (y, m) => ⟨y, m, 1⟩
    | none => subDays ⟨today.year, today.month, 1⟩ 365
  let md := monthlyData u txns start_date months_count
  let total_income := (md.map MonthRec.income).sum
  let total_expense := (md.map MonthRec.expense).sum
  { start_date := start_date
    end_date := monthlyEndStep^[months_count] ⟨start_date.year, start_date.month, 1⟩
    months := months_count
    total_income := total_income
    total_expense := total_expense
    total_balance := total_income - total_expense
    avg_monthly_income := if 0 < months_count then total_income / months_count else 0
    avg_monthly_expense := if 0 < months_count then total_expense / months_count else 0
    best_month := bestMonth md
    worst_month := worstMonth md
    trends := trendsOf md
    monthly_data := md }

theorem monthlyData_length (u : Nat) (txns : List Txn) (cur : PDate) (n : Nat) :
    (monthlyData u txns cur n).length = n := by
  induction n generalizing cur with
  | zero => rfl
  | succ k ih => simp [monthlyData, ih]

theorem trendWord_spec (ch : ℚ) :
    (trendWord ch = "up" ↔ 5 < ch) ∧ (trendWord ch = "down" ↔ ch < -5) ∧
      (trendWord ch = "stable" ↔ (-5 ≤ ch ∧ ch ≤ 5)) := by
  unfold trendWord
  split_ifs with h1 h2 <;>
    refine ⟨?_, ?_, ?_⟩ <;>
      simp_all <;>
        linarith

theorem trendsOf_of_six (md : List MonthRec) (h6 : 6 ≤ md.length) :
    trendsOf md =
      { income := if 0 < mean3 ((prev3 md).map MonthRec.income) then
          trendWord ((mean3 ((last3 md).map MonthRec.income)
            - mean3 ((prev3 md).map MonthRec.income))
              / mean3 ((prev3 md).map MonthRec.income) * 100) else "stable"
        expense := if 0 < mean3 ((prev3 md).map MonthRec.expense) then
          trendWord ((mean3 ((last3 md).map MonthRec.expense)
            - mean3 ((prev3 md).map MonthRec.expense))
              / mean3 ((prev3 md).map MonthRec.expense) * 100) else "stable"
        balance := if mean3 ((prev3 md).map MonthRec.balance) ≠ 0 then
          trendWord ((mean3 ((last3 md).map MonthRec.balance)
            - mean3 ((prev3 md).map MonthRec.balance))
              / |mean3 ((prev3 md).map MonthRec.balance)| * 100) else "stable" } := by
  unfold trendsOf
  rw [if_pos h6]

/-- C2: in `generate_monthly_report`, with at least 6 monthly aggregates and
positive prior-3-month means for income and expense (the percentage change is
then well defined), each trend direction is `up` exactly when the change of
the trailing 3-month mean exceeds +5%, `down` exactly when it is below -5%,
and `stable` exactly when it lies in the closed band [-5, +5]; the balance
comparison divides by the absolute value of the prior mean and is `stable`
whenever that prior mean is exactly zero. -/
theorem C2_monthly_trend_classification
    (u : Nat) (start_month : Option (Nat × Nat)) (today : PDate) (months_count : Nat)
    (txns : List Txn) (md : List MonthRec)
    (h6 : 6 ≤ md.length)
    (hip : 0 < mean3 ((prev3 md).map MonthRec.income))
    (hep : 0 < mean3 ((prev3 md).map MonthRec.expense)) :
    (generate_monthly_report u start_month today months_count txns).trends =
        trendsOf (generate_monthly_report u start_month today months_count txns).monthly_data ∧
      (generate_monthly_report u start_month today months_count txns).monthly_data.length =
        months_count ∧
      ((trendsOf md).income = "up" ↔
        5 < (mean3 ((last3 md).map MonthRec.income) - mean3 ((prev3 md).map MonthRec.income))
            / mean3 ((prev3 md).map MonthRec.income) * 100) ∧
      ((trendsOf md).income = "down" ↔
        (mean3 ((last3 md).map MonthRec.income) - mean3 ((prev3 md).map MonthRec.income))
            / mean3 ((prev3 md).map MonthRec.income) * 100 < -5) ∧
      ((trendsOf md).income = "stable" ↔
        (-5 ≤ (mean3 ((last3 md).map MonthRec.income) - mean3 ((prev3 md).map MonthRec.income))
            / mean3 ((prev3 md).map MonthRec.income) * 100 ∧
          (mean3 ((last3 md).map MonthRec.income) - mean3 ((prev3 md).map MonthRec.income))
            / mean3 ((prev3 md).map MonthRec.income) * 100 ≤ 5)) ∧
      ((trendsOf md).expense = "up" ↔
        5 < (mean3 ((last3 md).map MonthRec.expense) - mean3 ((prev3 md).map MonthRec.expense))
            / mean3 ((prev3 md).map MonthRec.expense) * 100) ∧
      ((trendsOf md).expense = "down" ↔
        (mean3 ((last3 md).map MonthRec.expense) - mean3 ((prev3 md).map MonthRec.expense))
            / mean3 ((prev3 md).map MonthRec.expense) * 100 < -5) ∧
      ((trendsOf md).expense = "stable" ↔
        (-5 ≤ (mean3 ((last3 md).map MonthRec.expense) - mean3 ((prev3 md).map MonthRec.expense))
            / mean3 ((prev3 md).map MonthRec.expense) * 100 ∧
          (mean3 ((last3 md).map MonthRec.expense) - mean3 ((prev3 md).map MonthRec.expense))
            / mean3 ((prev3 md).map MonthRec.expense) * 100 ≤ 5)) ∧
      (mean3 ((prev3 md).map MonthRec.balance) = 0 → (trendsOf md).balance = "stable") ∧
      (mean3 ((prev3 md).map MonthRec.balance) ≠ 0 →
        (((trendsOf md).balance = "up" ↔
          5 < (mean3 ((last3 md).map MonthRec.balance) - mean3 ((prev3 md).map MonthRec.balance))
              / |mean3 ((prev3 md).map MonthRec.balance)| * 100) ∧
          ((trendsOf md).balance = "down" ↔
            (mean3 ((last3 md).map MonthRec.balance) - mean3 ((prev3 md).map MonthRec.balance))
              / |mean3 ((prev3 md).map MonthRec.balance)| * 100 < -5) ∧
          ((trendsOf md).balance = "stable" ↔
            (-5 ≤ (mean3 ((last3 md).map MonthRec.balance)
                - mean3 ((prev3 md).map MonthRec.balance))
                / |mean3 ((prev3 md).map MonthRec.balance)| * 100 ∧
              (mean3 ((last3 md).map MonthRec.balance)
                - mean3 ((prev3 md).map MonthRec.balance))
                / |mean3 ((prev3 md).map MonthRec.balance)| * 100 ≤ 5)))) := by
  have ht := trendsOf_of_six md h6
  have hI : (trendsOf md).income =
      trendWord ((mean3 ((last3 md).map MonthRec.income)
        - mean3 ((prev3 md).map MonthRec.income))
          / mean3 ((prev3 md).map MonthRec.income) * 100) := by
    rw [ht]
    exact if_pos hip
  have hE : (trendsOf md).expense =
      trendWord ((mean3 ((last3 md).map MonthRec.expense)
        - mean3 ((prev3 md).map MonthRec.expense))
          / mean3 ((prev3 md).map MonthRec.expense) * 100) := by
    rw [ht]
    exact if_pos hep
  refine ⟨rfl, monthlyData_length _ _ _ _, ?_, ?_, ?_, ?_, ?_, ?_, ?_, ?_⟩
  · rw [hI]; exact (trendWord_spec _).1
  · rw [hI]; exact (trendWord_spec _).2.1
  · rw [hI]; exact (trendWord_spec _).2.2
  · rw [hE]; exact (trendWord_spec _).1
  · rw [hE]; exact (trendWord_spec _).2.1
  · rw [hE]; exact (trendWord_spec _).2.2
  · intro hz
    rw [ht]
    show (if mean3 ((prev3 md).map MonthRec.balance) ≠ 0 then _ else "stable") = "stable"
    rw [if_neg (by simp [hz])]
  · intro hnz
    have hB : (trendsOf md).balance =
        trendWord ((mean3 ((last3 md).map MonthRec.balance)
          - mean3 ((prev3 md).map MonthRec.balance))
            / |mean3 ((prev3 md).map MonthRec.balance)| * 100) := by
      rw [ht]
      exact if_pos hnz
    rw [hB]
    exact ⟨(trendWord_spec _).1, (trendWord_spec _).2.1, (trendWord_spec _).2.2⟩

/-- C2 witness: six months with income stepping from 100 to 200 (+100%, `up`),
expense stepping from 100 to 104 (+4%, `stable`), and a zero prior balance
mean (balance `stable` through the zero guard). -/
theorem C2_monthly_trend_witness :
    (trendsOf
        [⟨2023, 1, 100, 100, 0, 0, 2⟩, ⟨2023, 2, 100, 100, 0, 0, 2⟩,
         ⟨2023, 3, 100, 100, 0, 0, 2⟩, ⟨2023, 4, 200, 104, 96, 48, 2⟩,
         ⟨2023, 5, 200, 104, 96, 48, 2⟩, ⟨2023, 6, 200, 104, 96, 48, 2⟩]).income = "up" ∧
      (trendsOf
        [⟨2023, 1, 100, 100, 0, 0, 2⟩, ⟨2023, 2, 100, 100, 0, 0, 2⟩,
         ⟨2023, 3, 100, 100, 0, 0, 2⟩, ⟨2023, 4, 200, 104, 96, 48, 2⟩,
         ⟨2023, 5, 200, 104, 96, 48, 2⟩, ⟨2023, 6, 200, 104, 96, 48, 2⟩]).expense = "stable" ∧
      (trendsOf
        [⟨2023, 1, 100, 100, 0, 0, 2⟩, ⟨2023, 2, 100, 100, 0, 0, 2⟩,
         ⟨2023, 3, 100, 100, 0, 0, 2⟩, ⟨2023, 4, 200, 104, 96, 48, 2⟩,
         ⟨2023, 5, 200, 104, 96, 48, 2⟩, ⟨2023, 6, 200, 104, 96, 48, 2⟩]).balance = "stable" ∧
      (generate_monthly_report 1 (some (2023, 1)) ⟨2024, 1, 1⟩ 6 []).monthly_data.length = 6 := by
  have h := C2_monthly_trend_classification 1 (some (2023, 1)) ⟨2024, 1, 1⟩ 6 []
    [⟨2023, 1, 100, 100, 0, 0, 2⟩, ⟨2023, 2, 100, 100, 0, 0, 2⟩,
     ⟨2023, 3, 100, 100, 0, 0, 2⟩, ⟨2023, 4, 200, 104, 96, 48, 2⟩,
     ⟨2023, 5, 200, 104, 96, 48, 2⟩, ⟨2023, 6, 200, 104, 96, 48, 2⟩]
    (by norm_num)
    (by norm_num [prev3, mean3])
    (by norm_num [prev3, mean3])
  refine ⟨h.2.2.1.mpr ?_, h.2.2.2.2.2.2.2.1.mpr ?_, h.2.2.2.2.2.2.2.2.1 ?_, h.2.1⟩
  · norm_num [prev3, last3, mean3]
  · norm_num [prev3, last3, mean3]
  · norm_num [prev3, mean3]

/-! ## Budget progress (budgets/controllers.py `calculate_budget_progress`,
generators.py `generate_budget_report`) -/

/-- A budget row (budgets/models.py, reporting-relevant fields). -/
structure Budget where
  id : Nat
  user_id : Nat
  amount : ℚ
  start_date : PDate
  end_date : PDate
  is_active : Bool
  deriving DecidableEq, Repr

/-- A per-category allocation row (budgets/models.py `BudgetCategory`). -/
structure BudgetCategory where
  budget_id : Nat
  category_id : Nat
  amount : ℚ
  deriving DecidableEq, Repr

/-- A per-category entry of `calculate_budget_progress`. -/
structure CategoryProgress where
  category_id : Nat
  budget_amount : ℚ
  spent : ℚ
  remaining : ℚ
  percentage : ℚ
  deriving Repr

/-- The record returned by `calculate_budget_progress` (it has no status
field). -/
structure BudgetProgress where
  total_budget : ℚ
  total_spent : ℚ
  remaining : ℚ
  percentage : ℚ
  categories : List CategoryProgress
  deriving Repr

/-- `calculate_budget_progress` (budgets/controllers.py lines 225-296) after
a successful budget lookup: `total_spent` (line 253) sums ALL the user's
expense transactions inside the budget window, regardless of category
allocations; the per-category detail (lines 269-285, when allocations exist)
filters that same transaction set per allocated category. -/
def calculate_budget_progress (budget : Budget) (budgetCats : List BudgetCategory)
    (txns : List Txn) : BudgetProgress :=
  let ts := txns.filter (fun t => t.user_id == budget.user_id
    && t.type == TType.expense && inWindow t budget.start_date budget.end_date)
  let total_spent := (ts.map Txn.amount).sum
  let cats := budgetCats.filter (fun bc => bc.budget_id == budget.id)
  { total_budget := budget.amount
    total_spent := total_spent
    remaining := max 0 (budget.amount - total_spent)
    percentage := if 0 < budget.amount then min 100 (total_spent / budget.amount * 100) else 0
    categories := cats.map (fun (bc : BudgetCategory) =>
      let cat_spent :=
        ((ts.filter (fun t => t.category_id == bc.category_id)).map Txn.amount).sum
      ({ category_id := bc.category_id
         budget_amount := bc.amount
         spent := cat_spent
         remaining := max 0 (bc.amount - cat_spent)
         percentage := if 0 < bc.amount then min 100 (cat_spent / bc.amount * 100)
           else 0 } : CategoryProgress)) }

/-- Python `max(a, b)` on dates: the second argument wins only when strictly
later. -/
def dateMaxP (a b : PDate) : PDate := if toOrdinal a < toOrdinal b then b else a

/-- Python `min(a, b)` on dates: the second argument wins only when strictly
earlier. -/
def dateMinP (a b : PDate) : PDate := if toOrdinal b < toOrdinal a then b else a

/-- A per-category entry of a `generate_budget_report` budget item. -/
structure BudgetReportCategory where
  category_id : Nat
  budget_amount : ℚ
  spent : ℚ
  remaining : ℚ
  percentage : ℚ
  status : String
  deriving Repr

/-- One element of the `budgets` list of `generate_budget_report`. -/
structure BudgetReportEntry where
  period_start : PDate
  period_end : PDate
  total_budget : ℚ
  total_spent : ℚ
  remaining : ℚ
  percentage : ℚ
  status : String
  categories : List BudgetReportCategory
  deriving Repr

/-- Loop body of `generate_budget_report` for one budget (generators.py
lines 359-429).  When the budget has category allocations the transaction
query is restricted to the allocated category ids
(`Transaction.category_id.in_(category_ids)`, line 376), so `total_spent`
(line 413) covers only allocated categories; with no allocations it covers
all the user's expenses in the clipped window. -/
def budgetReportEntry (budget : Budget) (budgetCats : List BudgetCategory)
    (txns : List Txn) (start_date end_date : PDate) : BudgetReportEntry :=
  let period_start := dateMaxP budget.start_date start_date
  let period_end := dateMinP budget.end_date end_date
  let cats := budgetCats.filter (fun bc => bc.budget_id == budget.id)
  let ts :=
    if cats.isEmpty then
      txns.filter (fun t => t.user_id == budget.user_id
        && t.type == TType.expense && inWindow t period_start period_end)
    else
      txns.filter (fun t => (t.user_id == budget.user_id
        && t.type == TType.expense && inWindow t period_start period_end)
        && (cats.map BudgetCategory.category_id).contains t.category_id)
  let total_spent := (ts.map Txn.amount).sum
  { period_start := period_start
    period_end := period_end
    total_budget := budget.amount
    total_spent := total_spent
    remaining := max 0 (budget.amount - total_spent)
    percentage := if 0 < budget.amount then min 100 (total_spent / budget.amount * 100) else 0
    status := if total_spent ≤ budget.amount then "on_track" else "exceeded"
    categories := cats.map (fun (bc : BudgetCategory) =>
      let spent := ((ts.filter (fun t => t.category_id == bc.category_id)).map Txn.amount).sum
      ({ category_id := bc.category_id
         budget_amount := bc.amount
         spent := spent
         remaining := max 0 (bc.amount - spent)
         percentage := if 0 < bc.amount then min 100 (spent / bc.amount * 100) else 0
         status := if spent ≤ bc.amount then "on_track"
           else "exceeded" } : BudgetReportCategory)) }

/-- The record returned by `generate_budget_report`. -/
structure BudgetReport where
  budgets : List BudgetReportEntry
  budget_count : Nat
  deriving Repr

/-- `generate_budget_report` (generators.py lines 326-441): date validation,
selection of the user's active budgets overlapping the window, and one
`budgetReportEntry` per budget. -/
def generate_budget_report (u : Nat) (start_date end_date : Option PDate)
    (budgets : List Budget) (budgetCats : List BudgetCategory) (txns : List Txn) :
    GenResult BudgetReport :=
  match start_date, end_date with
  | some s, some e =>
    let bs := budgets.filter (fun b => b.user_id == u && b.is_active
      && decide (toOrdinal b.start_date ≤ toOrdinal e)
      && decide (toOrdinal s ≤ toOrdinal b.end_date))
    .ok { budgets := bs.map (fun b => budgetReportEntry b budgetCats txns s e)
          budget_count := bs.length }
  | _, _ => .error "Invalid date format"

theorem sum_filter_and_split {α : Type} (f : α → ℚ) (P Q : α → Bool) (l : List α) :
    ((l.filter (fun a => P a && Q a)).map f).sum
        + ((l.filter (fun a => P a && !(Q a))).map f).sum
      = ((l.filter P).map f).sum := by
  induction l with
  | nil => simp
  | cons a l ih =>
    cases hP : P a <;> cases hQ : Q a <;>
      simp [hP, hQ] <;> linarith [ih]

theorem calculate_budget_progress_total_spent (budget : Budget)
    (budgetCats : List BudgetCategory) (txns : List Txn) :
    (calculate_budget_progress budget budgetCats txns).total_spent =
      ((txns.filter (fun t => t.user_id == budget.user_id
        && t.type == TType.expense
        && inWindow t budget.start_date budget.end_date)).map Txn.amount).sum := rfl

/-- C1 (amended): the two budget-progress computations disagree.
`calculate_budget_progress` counts ALL the user's expense transactions in the
budget window in its budget-level `total_spent`; but `generate_budget_report`,
whenever the budget has category allocations, restricts its transaction query
to the allocated category ids, so its budget-level `total_spent` covers only
allocated categories, and the difference between the two is exactly the spend
in unallocated categories. -/
theorem C1_budget_total_spend_amended (budget : Budget) (budgetCats : List BudgetCategory)
    (txns : List Txn) (s e : PDate)
    (hcats : budgetCats.filter (fun bc => bc.budget_id == budget.id) ≠ [])
    (hs : toOrdinal s ≤ toOrdinal budget.start_date)
    (he : toOrdinal budget.end_date ≤ toOrdinal e) :
    (budgetReportEntry budget budgetCats txns s e).total_spent =
        ((txns.filter (fun t => (t.user_id == budget.user_id
          && t.type == TType.expense
          && inWindow t budget.start_date budget.end_date)
          && ((budgetCats.filter (fun bc => bc.budget_id == budget.id)).map
              BudgetCategory.category_id).contains t.category_id)).map Txn.amount).sum ∧
      (calculate_budget_progress budget budgetCats txns).total_spent =
        (budgetReportEntry budget budgetCats txns s e).total_spent +
          ((txns.filter (fun t => (t.user_id == budget.user_id
            && t.type == TType.expense
            && inWindow t budget.start_date budget.end_date)
            && !(((budgetCats.filter (fun bc => bc.budget_id == budget.id)).map
                BudgetCategory.category_id).contains t.category_id))).map Txn.amount).sum := by
  have hps : dateMaxP budget.start_date s = budget.start_date := by
    unfold dateMaxP
    rw [if_neg (by omega)]
  have hpe : dateMinP budget.end_date e = budget.end_date := by
    unfold dateMinP
    rw [if_neg (by omega)]
  have hne : (budgetCats.filter (fun bc => bc.budget_id == budget.id)).isEmpty = false := by
    cases hcl : budgetCats.filter (fun bc => bc.budget_id == budget.id) with
    | nil => exact absurd hcl hcats
    | cons a l => rfl
  have h1 : (budgetReportEntry budget budgetCats txns s e).total_spent =
      ((txns.filter (fun t => (t.user_id == budget.user_id
        && t.type == TType.expense
        && inWindow t budget.start_date budget.end_date)
        && ((budgetCats.filter (fun bc => bc.budget_id == budget.id)).map
            BudgetCategory.category_id).contains t.category_id)).map Txn.amount).sum := by
    unfold budgetReportEntry
    simp only [hps, hpe, hne, Bool.false_eq_true, if_false]
  refine ⟨h1, ?_⟩
  rw [calculate_budget_progress_total_spent, h1]
  exact (sum_filter_and_split Txn.amount
    (fun t => t.user_id == budget.user_id && t.type == TType.expense
      && inWindow t budget.start_date budget.end_date)
    (fun t => ((budgetCats.filter (fun bc => bc.budget_id == budget.id)).map
      BudgetCategory.category_id).contains t.category_id) txns).symm

/-- C1 counterexample (Scenario A): budget amount 1000 with one allocation of
600 on category 1; expenses of 700 on category 1 and 250 on category 2 in the
window.  The claim says the budget-level total of `generate_budget_report` is
950; the code restricts the query to allocated categories and reports 700,
while `calculate_budget_progress` reports 950. -/
theorem C1_scenario_a_counterexample :
    (budgetReportEntry ⟨1, 1, 1000, ⟨2024, 1, 1⟩, ⟨2024, 1, 31⟩, true⟩ [⟨1, 1, 600⟩]
        [⟨1, TType.expense, 700, ⟨2024, 1, 10⟩, 1, false⟩,
         ⟨1, TType.expense, 250, ⟨2024, 1, 12⟩, 2, false⟩]
        ⟨2024, 1, 1⟩ ⟨2024, 1, 31⟩).total_spent = 700 ∧
      (calculate_budget_progress ⟨1, 1, 1000, ⟨2024, 1, 1⟩, ⟨2024, 1, 31⟩, true⟩ [⟨1, 1, 600⟩]
        [⟨1, TType.expense, 700, ⟨2024, 1, 10⟩, 1, false⟩,
         ⟨1, TType.expense, 250, ⟨2024, 1, 12⟩, 2, false⟩]).total_spent = 950 ∧
      (700 : ℚ) ≠ 950 := by
  refine ⟨?_, ?_, by norm_num⟩
  · simp [budgetReportEntry, dateMaxP, dateMinP, inWindow, toOrdinal, daysBeforeMonth, isLeap]
  · simp [calculate_budget_progress, inWindow, toOrdinal, daysBeforeMonth, isLeap]
    norm_num

/-- C1 witness: the amended theorem applied to Scenario A — the 950 reported
by `calculate_budget_progress` exceeds the 700 reported by the report entry
by exactly the 250 of unallocated spend, the progress percentage is 95, and
the report entry says 70 with status `on_track`. -/
theorem C1_budget_total_spend_witness :
    (calculate_budget_progress ⟨1, 1, 1000, ⟨2024, 1, 1⟩, ⟨2024, 1, 31⟩, true⟩ [⟨1, 1, 600⟩]
        [⟨1, TType.expense, 700, ⟨2024, 1, 10⟩, 1, false⟩,
         ⟨1, TType.expense, 250, ⟨2024, 1, 12⟩, 2, false⟩]).total_spent =
      (budgetReportEntry ⟨1, 1, 1000, ⟨2024, 1, 1⟩, ⟨2024, 1, 31⟩, true⟩ [⟨1, 1, 600⟩]
        [⟨1, TType.expense, 700, ⟨2024, 1, 10⟩, 1, false⟩,
         ⟨1, TType.expense, 250, ⟨2024, 1, 12⟩, 2, false⟩]
        ⟨2024, 1, 1⟩ ⟨2024, 1, 31⟩).total_spent + 250 ∧
      (calculate_budget_progress ⟨1, 1, 1000, ⟨2024, 1, 1⟩, ⟨2024, 1, 31⟩, true⟩ [⟨1, 1, 600⟩]
        [⟨1, TType.expense, 700, ⟨2024, 1, 10⟩, 1, false⟩,
         ⟨1, TType.expense, 250, ⟨2024, 1, 12⟩, 2, false⟩]).percentage = 95 ∧
      (budgetReportEntry ⟨1, 1, 1000, ⟨2024, 1, 1⟩, ⟨2024, 1, 31⟩, true⟩ [⟨1, 1, 600⟩]
        [⟨1, TType.expense, 700, ⟨2024, 1, 10⟩, 1, false⟩,
         ⟨1, TType.expense, 250, ⟨2024, 1, 12⟩, 2, false⟩]
        ⟨2024, 1, 1⟩ ⟨2024, 1, 31⟩).percentage = 70 ∧
      (budgetReportEntry ⟨1, 1, 1000, ⟨2024, 1, 1⟩, ⟨2024, 1, 31⟩, true⟩ [⟨1, 1, 600⟩]
        [⟨1, TType.expense, 700, ⟨2024, 1, 10⟩, 1, false⟩,
         ⟨1, TType.expense, 250, ⟨2024, 1, 12⟩, 2, false⟩]
        ⟨2024, 1, 1⟩ ⟨2024, 1, 31⟩).status = "on_track" := by
  have h := C1_budget_total_spend_amended
    ⟨1, 1, 1000, ⟨2024, 1, 1⟩, ⟨2024, 1, 31⟩, true⟩ [⟨1, 1, 600⟩]
    [⟨1, TType.expense, 700, ⟨2024, 1, 10⟩, 1, false⟩,
     ⟨1, TType.expense, 250, ⟨2024, 1, 12⟩, 2, false⟩]
    ⟨2024, 1, 1⟩ ⟨2024, 1, 31⟩ (by decide) (by decide) (by decide)
  refine ⟨?_, ?_, ?_, ?_⟩
  · rw [h.2]
    congr 1
    simp [inWindow, toOrdinal, daysBeforeMonth, isLeap]
  · simp [calculate_budget_progress, inWindow, toOrdinal, daysBeforeMonth, isLeap]
    norm_num [min_def]
  · simp [budgetReportEntry, dateMaxP, dateMinP, inWindow, toOrdinal, daysBeforeMonth, isLeap]
    norm_num [min_def]
  · simp [budgetReportEntry, dateMaxP, dateMinP, inWindow, toOrdinal, daysBeforeMonth, isLeap]
    norm_num

/-! ## Goals (goals/controllers.py and generators.py
`generate_goals_report`) -/

/-- A goal row (goals/models.py, reporting- and mutation-relevant fields). -/
structure Goal where
  target_amount : ℚ
  current_amount : ℚ
  deadline : Option PDate
  is_completed : Bool
  completed_date : Option PDate
  is_active : Bool
  deriving DecidableEq, Repr

/-- The record returned by `calculate_goal_progress`: `days_remaining` and
`daily_amount_needed` are `none` when the corresponding keys are absent from
the result dict. -/
structure GoalProgress where
  progress_percentage : ℚ
  remaining_amount : ℚ
  status : String
  days_remaining : Option Int
  daily_amount_needed : Option ℚ
  deriving Repr

/-- `calculate_goal_progress` (goals/controllers.py lines 269-323) after a
successful goal lookup.  The status starts as `completed`/`in_progress`; a
deadline strictly in the past overwrites it with `overdue`; otherwise a
deadline within 30 days with progress below 75% gives `at_risk` — and when
neither fires the status stays `in_progress` (this function never says
`on_track`).  `daily_amount_needed` is emitted whenever `days_remaining > 0`,
even for a remaining amount of zero. -/
def calculate_goal_progress (g : Goal) (today : PDate) : GoalProgress :=
  let progress_percentage :=
    if 0 < g.target_amount then min 100 (g.current_amount / g.target_amount * 100) else 0
  let remaining_amount := max 0 (g.target_amount - g.current_amount)
  let status :=
    if g.is_completed then "completed"
    else match g.deadline with
      | none => "in_progress"
      | some dl =>
        if toOrdinal dl < toOrdinal today then "overdue"
        else if (toOrdinal dl : Int) - (toOrdinal today : Int) ≤ 30
            ∧ progress_percentage < 75 then "at_risk"
        else "in_progress"
  let days_remaining : Option Int :=
    match g.deadline with
    | some dl =>
      if g.is_completed then none
      else some (max 0 ((toOrdinal dl : Int) - (toOrdinal today : Int)))
    | none => none
  { progress_percentage := progress_percentage
    remaining_amount := remaining_amount
    status := status
    days_remaining := days_remaining
    daily_amount_needed :=
      match days_remaining with
      | some days => if 0 < days then some (remaining_amount / (days : ℚ)) else none
      | none => none }

/-- One `progress` record of `generate_goals_report`. -/
structure GoalReportEntry where
  percentage : ℚ
  current_amount : ℚ
  remaining_amount : ℚ
  days_remaining : Option Int
  daily_amount_needed : Option ℚ
  status : String
  deriving Repr

/-- The `days_remaining` local of the `generate_goals_report` loop (lines
460-463): clamped to 0, present only for a non-completed goal with a
deadline. -/
def goalDaysRemaining (g : Goal) (today : PDate) : Option Int :=
  match g.deadline with
  | some dl =>
    if g.is_completed then none
    else some (max 0 ((toOrdinal dl : Int) - (toOrdinal today : Int)))
  | none => none

/-- The `daily_amount_needed` local (lines 466-470): present only when
`days_remaining > 0` and the remaining amount is positive. -/
def goalDailyAmount (g : Goal) (today : PDate) : Option ℚ :=
  match goalDaysRemaining g today with
  | some days =>
    if 0 < days then
      (if 0 < g.target_amount - g.current_amount then
        some ((g.target_amount - g.current_amount) / (days : ℚ))
      else none)
    else none
  | none => none

/-- The status chain of the `generate_goals_report` loop (lines 472-482).
`none` models Python raising: the at-risk test divides
`goal.current_amount / goal.target_amount` with NO zero guard (line 479), a
`ZeroDivisionError` whenever it is reached with `target_amount = 0`.  Unlike
`calculate_goal_progress`, `days_remaining ≤ 0` (deadline today or earlier)
is classified `overdue` and the final fallback is `on_track`. -/
def goalStatusQ (g : Goal) (today : PDate) : Option String :=
  if g.is_completed then some "completed"
  else match g.deadline with
    | none => some "in_progress"
    | some _ =>
      match goalDaysRemaining g today with
      | some days =>
        if days ≤ 0 then some "overdue"
        else if days ≤ 30 then
          (if g.target_amount = 0 then none
           else if g.current_amount / g.target_amount < 3 / 4 then some "at_risk"
           else some "on_track")
        else some "on_track"
      | none => some "on_track"

/-- Per-goal body of `generate_goals_report` (generators.py lines 458-495);
`none` when the status computation raises. -/
def goalReportEntry (g : Goal) (today : PDate) : Option GoalReportEntry :=
  match goalStatusQ g today with
  | none => none
  | some status =>
    some { percentage :=
             if 0 < g.target_amount then min 100 (g.current_amount / g.target_amount * 100)
             else 0
           current_amount := g.current_amount
           remaining_amount := max 0 (g.target_amount - g.current_amount)
           days_remaining := goalDaysRemaining g today
           daily_amount_needed := goalDailyAmount g today
           status := status }

theorem goalReportEntry_eq_none_iff (g : Goal) (today : PDate) :
    goalReportEntry g today = none ↔ goalStatusQ g today = none := by
  unfold goalReportEntry
  cases h : goalStatusQ g today <;> simp

theorem goalReportEntry_map_status (g : Goal) (today : PDate) :
    (goalReportEntry g today).map GoalReportEntry.status = goalStatusQ g today := by
  unfold goalReportEntry
  cases h : goalStatusQ g today <;> simp

/-- The per-goal loop of `generate_goals_report` (lines 456-495): the first
`ZeroDivisionError` aborts the whole report. -/
def goalsEntries (today : PDate) : List Goal → Option (List GoalReportEntry)
  | [] => some []
  | g :: gs =>
    match goalReportEntry g today, goalsEntries today gs with
    | some entry, some entries => some (entry :: entries)
    | _, _ => none

/-- The summary-level record of `generate_goals_report`. -/
structure GoalsReport where
  total_goals : Nat
  completed_goals : Nat
  active_goals : Nat
  at_risk_goals : Nat
  total_saved : ℚ
  total_target : ℚ
  overall_progress : ℚ
  completion_rate : ℚ
  goals : List GoalReportEntry
  deriving Repr

/-- `generate_goals_report` (generators.py lines 443-522) over the user's
goal rows.  `none` models the report aborting with `ZeroDivisionError`. -/
def generate_goals_report (goals : List Goal) (today : PDate) : Option GoalsReport :=
  match goalsEntries today goals with
  | none => none
  | some entries =>
    let completed := entries.filter (fun e => e.status == "completed")
    let active := entries.filter (fun e => e.status != "completed")
    let at_risk := entries.filter (fun e => e.status == "at_risk" || e.status == "overdue")
    let total_saved := (goals.map Goal.current_amount).sum
    let total_target := (goals.map Goal.target_amount).sum
    some { total_goals := goals.length
           completed_goals := completed.length
           active_goals := active.length
           at_risk_goals := at_risk.length
           total_saved := total_saved
           total_target := total_target
           overall_progress :=
             if 0 < total_target then min 100 (total_saved / total_target * 100) else 0
           completion_rate :=
             if goals.length ≠ 0 then (completed.length : ℚ) / (goals.length : ℚ) * 100 else 0
           goals := entries }

/-- `create_goal` (goals/controllers.py lines 11-54 together with the model
constructor, goals/models.py lines 35-60): a new goal starts not completed,
and is marked completed with `completed_date = today` when
`current_amount >= target_amount` already holds at creation. -/
def create_goal (target current : ℚ) (deadline : Option PDate) (today : PDate) : Goal :=
  let g : Goal :=
    { target_amount := target
      current_amount := current
      deadline := deadline
      is_completed := false
      completed_date := none
      is_active := true }
  if g.target_amount ≤ g.current_amount then
    { g with is_completed := true, completed_date := some today }
  else g

/-- The `'deadline'` key of an update payload: absent, present and falsy
(clears the deadline), or present with a parse result (`none` = unparsable,
the old deadline is kept). -/
inductive DeadlineUpd where
  | absent
  | clear
  | set (parsed : Option PDate)
  deriving DecidableEq, Repr

/-- `update_goal` (goals/controllers.py lines 98-164): apply whichever fields
are present, then re-derive `is_completed`/`completed_date` (lines 148-155):
set on an upward crossing, cleared on a downward crossing. -/
def update_goal (g : Goal) (targetQ currentQ : Option ℚ) (dlUpd : DeadlineUpd)
    (today : PDate) : Goal :=
  let g1 :=
    { g with
      target_amount := targetQ.getD g.target_amount
      current_amount := currentQ.getD g.current_amount
      deadline :=
        match dlUpd with
        | .absent => g.deadline
        | .clear => none
        | .set none => g.deadline
        | .set (some d) => some d }
  if g1.target_amount ≤ g1.current_amount ∧ g1.is_completed = false then
    { g1 with is_completed := true, completed_date := some today }
  else if g1.current_amount < g1.target_amount ∧ g1.is_completed = true then
    { g1 with is_completed := false, completed_date := none }
  else g1

/-- The goal-side effect of `add_goal_contribution` (goals/controllers.py
lines 226-232): `current_amount += amount`, then mark completed (with
`completed_date = today`) on an upward crossing; nothing is ever un-marked
here. -/
def applyContribution (g : Goal) (amount : ℚ) (today : PDate) : Goal :=
  let g1 := { g with current_amount := g.current_amount + amount }
  if g1.target_amount ≤ g1.current_amount ∧ g1.is_completed = false then
    { g1 with is_completed := true, completed_date := some today }
  else g1

/-- A `GoalContribution` row. -/
structure Contribution where
  amount : ℚ
  date : PDate
  notes : Option String
  deriving DecidableEq, Repr

/-- The committed state touched by `add_goal_contribution`: the queried goal
row (`none` = not found / owned by someone else) and the contribution
table. -/
structure GoalDB where
  goal : Option Goal
  contributions : List Contribution
  deriving Repr

/-- Result of `add_goal_contribution`: the updated goal and the inserted row,
`notFound` for a failed lookup, `failed` for a rolled-back commit. -/
inductive ContribResult where
  | ok (goal : Goal) (contribution : Contribution)
  | notFound
  | failed
  deriving Repr

/-- `add_goal_contribution` (goals/controllers.py lines 192-245) as a
transaction on the visible state.  The function stages the contribution
insert (`db.session.add`, line 224) and the goal update (lines 227-232) in
the same session and issues a single `commit()` (line 234); `commitOk` says
whether that commit succeeds.  On failure the `except` arms call
`rollback()`, which discards both staged changes, leaving the committed
state untouched. -/
def add_goal_contribution (db : GoalDB) (amount : ℚ) (cdate : Option PDate)
    (notes : Option String) (today : PDate) (commitOk : Bool) :
    ContribResult × GoalDB :=
  match db.goal with
  | none => (.notFound, db)
  | some g =>
    let contribution : Contribution :=
      { amount := amount, date := cdate.getD today, notes := notes }
    let gNew := applyContribution g amount today
    if commitOk then
      (.ok gNew contribution,
        { goal := some gNew, contributions := db.contributions ++ [contribution] })
    else (.failed, db)

/-- The completion invariant of the spec: `is_completed` holds exactly when
the target has been reached. -/
def goalInv (g : Goal) : Prop := g.is_completed = true ↔ g.target_amount ≤ g.current_amount

/-- C4: after each goal-mutating operation the completion invariant
`is_completed ↔ current_amount ≥ target_amount` holds: creation and
`update_goal` (which both set the flag on an upward crossing and `update_goal`
also clears it on a downward crossing, managing `completed_date`
accordingly) establish it unconditionally, and `add_goal_contribution`'s goal
update preserves it for positive contribution amounts. -/
theorem C4_goal_completion_invariant
    (target current : ℚ) (deadline : Option PDate) (today : PDate)
    (g gc : Goal) (targetQ currentQ : Option ℚ) (dlUpd : DeadlineUpd)
    (amount : ℚ) (hinv : goalInv gc) (hamt : 0 < amount) :
    goalInv (create_goal target current deadline today) ∧
    goalInv (update_goal g targetQ currentQ dlUpd today) ∧
    ((update_goal g targetQ currentQ dlUpd today).is_completed = true →
      g.is_completed = false →
      (update_goal g targetQ currentQ dlUpd today).completed_date = some today) ∧
    (g.is_completed = true →
      (update_goal g targetQ currentQ dlUpd today).is_completed = false →
      (update_goal g targetQ currentQ dlUpd today).completed_date = none) ∧
    goalInv (applyContribution gc amount today) ∧
    ((applyContribution gc amount today).is_completed = true → gc.is_completed = false →
      (applyContribution gc amount today).completed_date = some today) := by
  refine ⟨?_, ?_, ?_, ?_, ?_, ?_⟩
  · unfold create_goal goalInv
    dsimp only
    split_ifs with h <;> simp_all
  · unfold update_goal goalInv
    dsimp only
    split_ifs with h1 h2 <;> simp_all <;>
      cases hc : g.is_completed <;> simp_all
  · unfold update_goal
    dsimp only
    split_ifs with h1 h2 <;> simp_all
  · unfold update_goal
    dsimp only
    split_ifs with h1 h2 <;> simp_all
  · unfold applyContribution goalInv
    unfold goalInv at hinv
    dsimp only
    split_ifs with h1 <;> simp_all <;>
      cases hc : gc.is_completed <;> simp_all <;>
        first
          | linarith
          | (constructor <;> intro hx <;> [linarith; exact h1 hx])
  · unfold applyContribution
    dsimp only
    split_ifs with h1 <;> simp_all

/-- C4 witness: a contribution of 200 to a goal at 900 of 1000 (Scenario C
shape) flips `is_completed` to true with `completed_date` set to today, and
creation establishes the invariant. -/
theorem C4_goal_completion_invariant_witness :
    goalInv (applyContribution ⟨1000, 900, none, false, none, true⟩ 200 ⟨2024, 6, 15⟩) ∧
      (applyContribution ⟨1000, 900, none, false, none, true⟩ 200 ⟨2024, 6, 15⟩).is_completed =
        true ∧
      (applyContribution ⟨1000, 900, none, false, none, true⟩ 200 ⟨2024, 6, 15⟩).completed_date =
        some ⟨2024, 6, 15⟩ ∧
      goalInv (create_goal 1000 0 none ⟨2024, 6, 15⟩) := by
  have h := C4_goal_completion_invariant 1000 0 none ⟨2024, 6, 15⟩
    ⟨1000, 900, none, false, none, true⟩ ⟨1000, 900, none, false, none, true⟩
    none none DeadlineUpd.absent 200
    (by unfold goalInv; simp; norm_num) (by norm_num)
  have hcomp : (applyContribution ⟨1000, 900, none, false, none, true⟩ 200
      ⟨2024, 6, 15⟩).is_completed = true := by
    apply h.2.2.2.2.1.mpr
    unfold applyContribution
    dsimp only
    rw [if_pos (by norm_num)]
    norm_num
  exact ⟨h.2.2.2.2.1, hcomp, h.2.2.2.2.2 hcomp rfl, h.1⟩

/-- C5: `add_goal_contribution` is atomic.  When the single commit succeeds,
the visible state gains exactly the contribution row and the goal update
(`current_amount` increased by the contribution amount, `is_completed`
re-evaluated); when the commit fails or the goal is not found, the visible
state is completely unchanged. -/
theorem C5_add_goal_contribution_atomic
    (g : Goal) (contributions : List Contribution) (amount : ℚ)
    (cdate : Option PDate) (notes : Option String) (today : PDate) (commitOk : Bool) :
    (add_goal_contribution ⟨some g, contributions⟩ amount cdate notes today true).1 =
        ContribResult.ok (applyContribution g amount today)
          ⟨amount, cdate.getD today, notes⟩ ∧
      (add_goal_contribution ⟨some g, contributions⟩ amount cdate notes today true).2 =
        ⟨some (applyContribution g amount today),
          contributions ++ [⟨amount, cdate.getD today, notes⟩]⟩ ∧
      (applyContribution g amount today).current_amount = g.current_amount + amount ∧
      (applyContribution g amount today).is_completed =
        (g.is_completed || decide (g.target_amount ≤ g.current_amount + amount)) ∧
      (add_goal_contribution ⟨some g, contributions⟩ amount cdate notes today false).1 =
        ContribResult.failed ∧
      (add_goal_contribution ⟨some g, contributions⟩ amount cdate notes today false).2 =
        ⟨some g, contributions⟩ ∧
      (add_goal_contribution ⟨none, contributions⟩ amount cdate notes today commitOk).1 =
        ContribResult.notFound ∧
      (add_goal_contribution ⟨none, contributions⟩ amount cdate notes today commitOk).2 =
        ⟨none, contributions⟩ := by
  refine ⟨rfl, rfl, ?_, ?_, rfl, rfl, rfl, rfl⟩
  · unfold applyContribution
    dsimp only
    split_ifs with h <;> rfl
  · unfold applyContribution
    dsimp only
    split_ifs with h
    · simp [h.1, h.2]
    · rw [not_and_or] at h
      rcases h with h | h
      · have : decide (g.target_amount ≤ g.current_amount + amount) = false := by
          simpa using h
        cases hc : g.is_completed <;> simp [this]
      · have hc : g.is_completed = true := by
          simpa using h
        simp [hc]

theorem goalsEntries_isSome (today : PDate) (gs : List Goal) :
    (goalsEntries today gs).isSome = true ↔
      ∀ g ∈ gs, (goalReportEntry g today).isSome = true := by
  induction gs with
  | nil => simp [goalsEntries]
  | cons g gs ih =>
    unfold goalsEntries
    cases h1 : goalReportEntry g today <;>
      cases h2 : goalsEntries today gs <;>
        simp_all

/-- C10 (amended): `calculate_goal_progress` guards every division
(zero-target goals get progress 0), but `generate_goals_report`'s at-risk
test divides by `target_amount` without a guard: its per-goal evaluation
raises `ZeroDivisionError` exactly for a non-completed goal with
`target_amount = 0` whose deadline lies strictly after today by at most 30
days, and the whole report aborts exactly when some goal in the list hits
this case. -/
theorem C10_goals_report_totality_amended (g : Goal) (today : PDate) (goals : List Goal) :
    (goalReportEntry g today = none ↔
      (g.target_amount = 0 ∧ g.is_completed = false ∧
        ∃ dl, g.deadline = some dl ∧
          0 < (toOrdinal dl : Int) - (toOrdinal today : Int) ∧
          (toOrdinal dl : Int) - (toOrdinal today : Int) ≤ 30)) ∧
    ((generate_goals_report goals today).isSome = true ↔
      ∀ g' ∈ goals, (goalReportEntry g' today).isSome = true) ∧
    (g.target_amount = 0 → (calculate_goal_progress g today).progress_percentage = 0) := by
  refine ⟨?_, ?_, ?_⟩
  · rw [goalReportEntry_eq_none_iff]
    unfold goalStatusQ goalDaysRemaining
    cases hc : g.is_completed <;> cases hdl : g.deadline <;>
      simp only [hc, hdl, Bool.false_eq_true, if_false, if_true]
    · simp
    · rename_i dl
      have hmax0 : max (0 : Int) ((toOrdinal dl : Int) - (toOrdinal today : Int)) ≤ 0 ↔
          (toOrdinal dl : Int) - (toOrdinal today : Int) ≤ 0 := by
        simp [max_le_iff]
      have hmax30 : max (0 : Int) ((toOrdinal dl : Int) - (toOrdinal today : Int)) ≤ 30 ↔
          (toOrdinal dl : Int) - (toOrdinal today : Int) ≤ 30 := by
        simp [max_le_iff]
      split_ifs with h1 h2 h3 h4
      · rw [hmax0] at h1
        refine iff_of_false (by simp) ?_
        rintro ⟨-, -, dl', hdl', hpos, -⟩
        obtain rfl : dl = dl' := by injection hdl'
        omega
      · rw [hmax0] at h1
        rw [hmax30] at h2
        refine iff_of_true (by simp) ?_
        exact ⟨h3, trivial, dl, rfl, by omega, h2⟩
      · refine iff_of_false (by simp) ?_
        rintro ⟨h0, -, -⟩
        exact h3 h0
      · refine iff_of_false (by simp) ?_
        rintro ⟨h0, -, -⟩
        exact h3 h0
      · rw [hmax30] at h2
        refine iff_of_false (by simp) ?_
        rintro ⟨-, -, dl', hdl', -, hle⟩
        obtain rfl : dl = dl' := by injection hdl'
        omega
    · simp
    · simp
  · have hx : (generate_goals_report goals today).isSome =
        (goalsEntries today goals).isSome := by
      unfold generate_goals_report
      cases h : goalsEntries today goals <;> rfl
    rw [hx]
    exact goalsEntries_isSome today goals
  · intro h0
    unfold calculate_goal_progress
    dsimp only
    rw [if_neg (by rw [h0]; exact lt_irrefl 0)]

/-- C10 counterexample: a non-completed goal with `target_amount = 0` and a
deadline 10 days out crashes the per-goal status evaluation of
`generate_goals_report` with `ZeroDivisionError` (modelled as `none`), and
the whole report aborts. -/
theorem C10_goals_report_divzero_counterexample :
    goalReportEntry ⟨0, 0, some ⟨2024, 6, 25⟩, false, none, true⟩ ⟨2024, 6, 15⟩ = none ∧
      generate_goals_report [⟨0, 0, some ⟨2024, 6, 25⟩, false, none, true⟩] ⟨2024, 6, 15⟩ =
        none := by
  have h : goalStatusQ ⟨0, 0, some ⟨2024, 6, 25⟩, false, none, true⟩ ⟨2024, 6, 15⟩ = none := by
    unfold goalStatusQ goalDaysRemaining
    norm_num [toOrdinal, daysBeforeMonth, isLeap, max_def]
  have he : goalReportEntry ⟨0, 0, some ⟨2024, 6, 25⟩, false, none, true⟩ ⟨2024, 6, 15⟩
      = none := by
    rw [goalReportEntry_eq_none_iff]
    exact h
  refine ⟨he, ?_⟩
  unfold generate_goals_report goalsEntries
  rw [he]

/-- C10 witness: the amended theorem applied at a goal with positive target
(the report entry exists) and at a zero-target goal for the guarded
percentage of `calculate_goal_progress`. -/
theorem C10_goals_report_totality_witness :
    (goalReportEntry ⟨1000, 400, some ⟨2024, 7, 5⟩, false, none, true⟩
        ⟨2024, 6, 15⟩).isSome = true ∧
      (calculate_goal_progress ⟨0, 0, none, false, none, true⟩
        ⟨2024, 6, 15⟩).progress_percentage = 0 := by
  have h1 := C10_goals_report_totality_amended
    ⟨1000, 400, some ⟨2024, 7, 5⟩, false, none, true⟩ ⟨2024, 6, 15⟩ []
  have h2 := C10_goals_report_totality_amended
    ⟨0, 0, none, false, none, true⟩ ⟨2024, 6, 15⟩ []
  constructor
  · rw [Option.isSome_iff_ne_none]
    intro hnone
    have := h1.1.mp hnone
    norm_num at this
  · exact h2.2.2 rfl

theorem goalStatusQ_of_active (g : Goal) (today : PDate) (hc : g.is_completed = false) :
    goalStatusQ g today =
      match g.deadline with
      | none => some "in_progress"
      | some dl =>
        if (toOrdinal dl : Int) - (toOrdinal today : Int) ≤ 0 then some "overdue"
        else if (toOrdinal dl : Int) - (toOrdinal today : Int) ≤ 30 then
          (if g.target_amount = 0 then none
           else if g.current_amount / g.target_amount < 3 / 4 then some "at_risk"
           else some "on_track")
        else some "on_track" := by
  unfold goalStatusQ goalDaysRemaining
  cases hdl : g.deadline <;>
    simp only [hc, hdl, Bool.false_eq_true, if_false]
  rename_i dl
  have hM0 : (max (0 : Int) ((toOrdinal dl : Int) - (toOrdinal today : Int)) ≤ 0) ↔
      ((toOrdinal dl : Int) - (toOrdinal today : Int) ≤ 0) := by
    simp [max_le_iff]
  have hM30 : (max (0 : Int) ((toOrdinal dl : Int) - (toOrdinal today : Int)) ≤ 30) ↔
      ((toOrdinal dl : Int) - (toOrdinal today : Int) ≤ 30) := by
    simp [max_le_iff]
  simp only [hM0, hM30]

theorem calculate_goal_progress_status (g : Goal) (today : PDate)
    (hc : g.is_completed = false) (ht : 0 < g.target_amount) :
    (calculate_goal_progress g today).status =
      match g.deadline with
      | none => "in_progress"
      | some dl =>
        if toOrdinal dl < toOrdinal today then "overdue"
        else if (toOrdinal dl : Int) - (toOrdinal today : Int) ≤ 30
            ∧ min 100 (g.current_amount / g.target_amount * 100) < 75 then "at_risk"
        else "in_progress" := by
  unfold calculate_goal_progress
  dsimp only
  rw [if_neg (by simp [hc]), if_pos ht]

/-- C3 (amended): status precedence of the two goal-progress calculators for
a non-completed goal with positive target.  Both start from `completed` /
no-deadline `in_progress`; but `generate_goals_report` classifies `overdue`
whenever the deadline is today OR earlier (its clamped `days_remaining ≤ 0`),
then `at_risk` when the deadline is within 30 days and the ratio is below
75%, with fallback `on_track`; while `calculate_goal_progress` classifies
`overdue` only for deadlines strictly before today, `at_risk` when the
deadline (today included) is at most 30 days away with percentage below 75,
and otherwise keeps `in_progress` — it never reports `on_track`. -/
theorem C3_goal_status_amended (g : Goal) (today : PDate)
    (ht : 0 < g.target_amount) (hc : g.is_completed = false) :
    ((goalReportEntry g today).map GoalReportEntry.status = some "overdue" ↔
      ∃ dl, g.deadline = some dl ∧ toOrdinal dl ≤ toOrdinal today) ∧
    ((goalReportEntry g today).map GoalReportEntry.status = some "at_risk" ↔
      ∃ dl, g.deadline = some dl ∧ toOrdinal today < toOrdinal dl ∧
        (toOrdinal dl : Int) - (toOrdinal today : Int) ≤ 30 ∧
        g.current_amount / g.target_amount < 3 / 4) ∧
    ((goalReportEntry g today).map GoalReportEntry.status = some "in_progress" ↔
      g.deadline = none) ∧
    ((goalReportEntry g today).map GoalReportEntry.status = some "on_track" ↔
      ∃ dl, g.deadline = some dl ∧ toOrdinal today < toOrdinal dl ∧
        (30 < (toOrdinal dl : Int) - (toOrdinal today : Int) ∨
          3 / 4 ≤ g.current_amount / g.target_amount)) ∧
    ((calculate_goal_progress g today).status = "overdue" ↔
      ∃ dl, g.deadline = some dl ∧ toOrdinal dl < toOrdinal today) ∧
    ((calculate_goal_progress g today).status = "at_risk" ↔
      ∃ dl, g.deadline = some dl ∧ toOrdinal today ≤ toOrdinal dl ∧
        (toOrdinal dl : Int) - (toOrdinal today : Int) ≤ 30 ∧
        min 100 (g.current_amount / g.target_amount * 100) < 75) ∧
    ((calculate_goal_progress g today).status ≠ "on_track") ∧
    (∀ gco : Goal, gco.is_completed = true →
      (calculate_goal_progress gco today).status = "completed" ∧
      (goalReportEntry gco today).map GoalReportEntry.status = some "completed") := by
  have hnz : g.target_amount ≠ 0 := ne_of_gt ht
  have hmap := goalReportEntry_map_status g today
  have hg := goalStatusQ_of_active g today hc
  have hcalc := calculate_goal_progress_status g today hc ht
  refine ⟨?_, ?_, ?_, ?_, ?_, ?_, ?_, ?_⟩
  · rw [hmap, hg]
    cases hdl : g.deadline with
    | none => simp
    | some dl =>
      dsimp only
      by_cases hd0 : (toOrdinal dl : Int) - (toOrdinal today : Int) ≤ 0
      · rw [if_pos hd0]
        exact iff_of_true rfl ⟨dl, rfl, by omega⟩
      · rw [if_neg hd0]
        refine iff_of_false ?_ ?_
        · by_cases hd30 : (toOrdinal dl : Int) - (toOrdinal today : Int) ≤ 30
          · rw [if_pos hd30, if_neg hnz]
            by_cases hr : g.current_amount / g.target_amount < 3 / 4
            · rw [if_pos hr]; simp
            · rw [if_neg hr]; simp
          · rw [if_neg hd30]; simp
        · rintro ⟨dl', hdl', hle⟩
          obtain rfl : dl = dl' := by injection hdl'
          omega
  · rw [hmap, hg]
    cases hdl : g.deadline with
    | none => simp
    | some dl =>
      dsimp only
      by_cases hd0 : (toOrdinal dl : Int) - (toOrdinal today : Int) ≤ 0
      · rw [if_pos hd0]
        refine iff_of_false (by simp) ?_
        rintro ⟨dl', hdl', hlt, -, -⟩
        obtain rfl : dl = dl' := by injection hdl'
        omega
      · rw [if_neg hd0]
        by_cases hd30 : (toOrdinal dl : Int) - (toOrdinal today : Int) ≤ 30
        · rw [if_pos hd30, if_neg hnz]
          by_cases hr : g.current_amount / g.target_amount < 3 / 4
          · rw [if_pos hr]
            exact iff_of_true rfl ⟨dl, rfl, by omega, hd30, hr⟩
          · rw [if_neg hr]
            refine iff_of_false (by simp) ?_
            rintro ⟨dl', hdl', -, -, hr'⟩
            obtain rfl : dl = dl' := by injection hdl'
            exact hr hr'
        · rw [if_neg hd30]
          refine iff_of_false (by simp) ?_
          rintro ⟨dl', hdl', -, h30, -⟩
          obtain rfl : dl = dl' := by injection hdl'
          omega
  · rw [hmap, hg]
    cases hdl : g.deadline with
    | none => simp
    | some dl =>
      dsimp only
      refine iff_of_false ?_ (by simp)
      by_cases hd0 : (toOrdinal dl : Int) - (toOrdinal today : Int) ≤ 0
      · rw [if_pos hd0]; simp
      · rw [if_neg hd0]
        by_cases hd30 : (toOrdinal dl : Int) - (toOrdinal today : Int) ≤ 30
        · rw [if_pos hd30, if_neg hnz]
          by_cases hr : g.current_amount / g.target_amount < 3 / 4
          · rw [if_pos hr]; simp
          · rw [if_neg hr]; simp
        · rw [if_neg hd30]; simp
  · rw [hmap, hg]
    cases hdl : g.deadline with
    | none => simp
    | some dl =>
      dsimp only
      by_cases hd0 : (toOrdinal dl : Int) - (toOrdinal today : Int) ≤ 0
      · rw [if_pos hd0]
        refine iff_of_false (by simp) ?_
        rintro ⟨dl', hdl', hlt, -⟩
        obtain rfl : dl = dl' := by injection hdl'
        omega
      · rw [if_neg hd0]
        by_cases hd30 : (toOrdinal dl : Int) - (toOrdinal today : Int) ≤ 30
        · rw [if_pos hd30, if_neg hnz]
          by_cases hr : g.current_amount / g.target_amount < 3 / 4
          · rw [if_pos hr]
            refine iff_of_false (by simp) ?_
            rintro ⟨dl', hdl', -, hor⟩
            obtain rfl : dl = dl' := by injection hdl'
            rcases hor with h30 | hge
            · omega
            · linarith
          · rw [if_neg hr]
            exact iff_of_true rfl ⟨dl, rfl, by omega, Or.inr (le_of_not_lt hr)⟩
        · rw [if_neg hd30]
          exact iff_of_true rfl ⟨dl, rfl, by omega, Or.inl (by omega)⟩
  · rw [hcalc]
    cases hdl : g.deadline with
    | none => simp
    | some dl =>
      dsimp only
      by_cases hlt : toOrdinal dl < toOrdinal today
      · rw [if_pos hlt]
        exact iff_of_true rfl ⟨dl, rfl, hlt⟩
      · rw [if_neg hlt]
        refine iff_of_false ?_ ?_
        · by_cases hA : (toOrdinal dl : Int) - (toOrdinal today : Int) ≤ 30
              ∧ min 100 (g.current_amount / g.target_amount * 100) < 75
          · rw [if_pos hA]; simp
          · rw [if_neg hA]; simp
        · rintro ⟨dl', hdl', hlt'⟩
          obtain rfl : dl = dl' := by injection hdl'
          exact hlt hlt'
  · rw [hcalc]
    cases hdl : g.deadline with
    | none => simp
    | some dl =>
      dsimp only
      by_cases hlt : toOrdinal dl < toOrdinal today
      · rw [if_pos hlt]
        refine iff_of_false (by simp) ?_
        rintro ⟨dl', hdl', hle, -, -⟩
        obtain rfl : dl = dl' := by injection hdl'
        omega
      · rw [if_neg hlt]
        by_cases hA : (toOrdinal dl : Int) - (toOrdinal today : Int) ≤ 30
            ∧ min 100 (g.current_amount / g.target_amount * 100) < 75
        · rw [if_pos hA]
          exact iff_of_true rfl ⟨dl, rfl, by omega, hA.1, hA.2⟩
        · rw [if_neg hA]
          refine iff_of_false (by simp) ?_
          rintro ⟨dl', hdl', -, h30, hp⟩
          obtain rfl : dl = dl' := by injection hdl'
          exact hA ⟨h30, hp⟩
  · rw [hcalc]
    cases hdl : g.deadline with
    | none => simp
    | some dl =>
      dsimp only
      by_cases hlt : toOrdinal dl < toOrdinal today
      · rw [if_pos hlt]; simp
      · rw [if_neg hlt]
        by_cases hA : (toOrdinal dl : Int) - (toOrdinal today : Int) ≤ 30
            ∧ min 100 (g.current_amount / g.target_amount * 100) < 75
        · rw [if_pos hA]; simp
        · rw [if_neg hA]; simp
  · intro gco hco
    constructor
    · unfold calculate_goal_progress
      dsimp only
      rw [if_pos hco]
    · rw [goalReportEntry_map_status]
      unfold goalStatusQ
      rw [if_pos hco]

/-- C3 counterexample: (a) a goal whose deadline is exactly today (clamped
`days_remaining = 0`) is classified `overdue` by `generate_goals_report`,
although the deadline has not strictly passed — the claim predicts
`at_risk` (days 0 ≤ 30, 40% < 75%); (b) a goal with a deadline 100 days out
gets `in_progress`, not the claim's final-else `on_track`, from
`calculate_goal_progress`. -/
theorem C3_goal_status_counterexample :
    (goalReportEntry ⟨1000, 400, some ⟨2024, 6, 15⟩, false, none, true⟩ ⟨2024, 6, 15⟩).map
        GoalReportEntry.status = some "overdue" ∧
      "overdue" ≠ "at_risk" ∧
      (calculate_goal_progress ⟨1000, 400, some ⟨2024, 9, 23⟩, false, none, true⟩
        ⟨2024, 6, 15⟩).status = "in_progress" ∧
      "in_progress" ≠ "on_track" := by
  refine ⟨?_, by simp, ?_, by simp⟩
  · rw [goalReportEntry_map_status, goalStatusQ_of_active _ _ rfl]
    dsimp only
    rw [if_pos (by norm_num [toOrdinal, daysBeforeMonth, isLeap])]
  · rw [calculate_goal_progress_status _ _ rfl (by norm_num)]
    dsimp only
    rw [if_neg (by norm_num [toOrdinal, daysBeforeMonth, isLeap]),
      if_neg (by norm_num [toOrdinal, daysBeforeMonth, isLeap])]

/-- C3 witness (Scenario B): target 1000, current 400, deadline 20 days from
today — percentage 40, days remaining 20, remaining amount 600, daily amount
needed 30, and both calculators say `at_risk`. -/
theorem C3_goal_status_witness :
    (goalReportEntry ⟨1000, 400, some ⟨2024, 7, 5⟩, false, none, true⟩ ⟨2024, 6, 15⟩).map
        GoalReportEntry.status = some "at_risk" ∧
      (calculate_goal_progress ⟨1000, 400, some ⟨2024, 7, 5⟩, false, none, true⟩
        ⟨2024, 6, 15⟩).status = "at_risk" ∧
      (calculate_goal_progress ⟨1000, 400, some ⟨2024, 7, 5⟩, false, none, true⟩
        ⟨2024, 6, 15⟩).progress_percentage = 40 ∧
      (calculate_goal_progress ⟨1000, 400, some ⟨2024, 7, 5⟩, false, none, true⟩
        ⟨2024, 6, 15⟩).remaining_amount = 600 ∧
      (calculate_goal_progress ⟨1000, 400, some ⟨2024, 7, 5⟩, false, none, true⟩
        ⟨2024, 6, 15⟩).days_remaining = some 20 ∧
      (calculate_goal_progress ⟨1000, 400, some ⟨2024, 7, 5⟩, false, none, true⟩
        ⟨2024, 6, 15⟩).daily_amount_needed = some 30 := by
  have h := C3_goal_status_amended ⟨1000, 400, some ⟨2024, 7, 5⟩, false, none, true⟩
    ⟨2024, 6, 15⟩ (by norm_num) rfl
  refine ⟨h.2.1.mpr ⟨⟨2024, 7, 5⟩, rfl, ?_, ?_, ?_⟩,
    h.2.2.2.2.2.1.mpr ⟨⟨2024, 7, 5⟩, rfl, ?_, ?_, ?_⟩, ?_, ?_, ?_, ?_⟩
  · norm_num [toOrdinal, daysBeforeMonth, isLeap]
  · norm_num [toOrdinal, daysBeforeMonth, isLeap]
  · norm_num
  · norm_num [toOrdinal, daysBeforeMonth, isLeap]
  · norm_num [toOrdinal, daysBeforeMonth, isLeap]
  · norm_num [min_def]
  · simp [calculate_goal_progress]
    norm_num [min_def]
  · simp [calculate_goal_progress]
    norm_num [max_def]
  · simp [calculate_goal_progress, toOrdinal, daysBeforeMonth, isLeap]
  · simp [calculate_goal_progress, toOrdinal, daysBeforeMonth, isLeap]
    norm_num [max_def]

/-! ## Category report (`generate_category_report`, generators.py lines
100-176) and the C9 error-path claims -/

/-- One entry of the category report's `category_data` dict. -/
structure CatRptEntry where
  id : Nat
  total : ℚ
  percentage : ℚ
  transaction_count : Nat
  deriving Repr

/-- One step of the `category_data` accumulation loop (lines 137-154). -/
def addToCatData : List CatRptEntry → Txn → List CatRptEntry
  | [], t => [⟨t.category_id, t.amount, 0, 1⟩]
  | c :: cs, t =>
    if c.id = t.category_id then
      { c with total := c.total + t.amount,
               transaction_count := c.transaction_count + 1 } :: cs
    else c :: addToCatData cs t

/-- `sorted(key=total, reverse=True)` comparison for category entries. -/
def catRptGe (a b : CatRptEntry) : Prop := b.total ≤ a.total

instance : DecidableRel catRptGe := fun a b => by
  unfold catRptGe; infer_instance

/-- The record returned by `generate_category_report`. -/
structure CategoryReport where
  total_amount : ℚ
  categories : List CatRptEntry
  transaction_count : Nat
  deriving Repr

/-- The body of `generate_category_report` after the date checks (lines
122-176): filter by user, type and window; group by category; fill in
percentages (guarded by `total_amount > 0`); sort descending by total. -/
def categoryReportCore (u : Nat) (s e : PDate) (ctype : TType) (txns : List Txn) :
    CategoryReport :=
  let ts := txns.filter (fun t => t.user_id == u && t.type == ctype && inWindow t s e)
  let total_amount := (ts.map Txn.amount).sum
  let category_data := ts.foldl addToCatData []
  let categories := category_data.map (fun c =>
    { c with percentage := if 0 < total_amount then c.total / total_amount * 100 else 0 })
  { total_amount := total_amount
    categories := List.insertionSort catRptGe categories
    transaction_count := ts.length }

/-- `generate_category_report` (lines 100-176): an unparsable date string
(`parse_date` returned `None`) yields the error record, lines 119-120. -/
def generate_category_report (u : Nat) (start_date end_date : Option PDate)
    (ctype : TType) (txns : List Txn) : GenResult CategoryReport :=
  match start_date, end_date with
  | some s, some e => .ok (categoryReportCore u s e ctype txns)
  | _, _ => .error "Invalid date format"

/-- C9 (amended): the summary, category and budget generators return the
structured record `{'error': 'Invalid date format'}` with no report fields
whenever either supplied date is invalid or unparsable; but
`generate_monthly_report` has no error path at all — an unparsable
`start_month` silently falls back to the first day of today's month minus
365 days and a full report is computed and returned. -/
theorem C9_invalid_date_amended (u : Nat) (txns : List Txn) (budgets : List Budget)
    (budgetCats : List BudgetCategory) (ctype : TType) (sQ eQ : Option PDate)
    (today : PDate) (cnt : Nat) :
    generate_summary_report u none eQ txns = .error "Invalid date format" ∧
    generate_summary_report u sQ none txns = .error "Invalid date format" ∧
    generate_category_report u none eQ ctype txns = .error "Invalid date format" ∧
    generate_category_report u sQ none ctype txns = .error "Invalid date format" ∧
    generate_budget_report u none eQ budgets budgetCats txns = .error "Invalid date format" ∧
    generate_budget_report u sQ none budgets budgetCats txns = .error "Invalid date format" ∧
    (generate_monthly_report u none today cnt txns).monthly_data.length = cnt ∧
    (generate_monthly_report u none today cnt txns).start_date =
      subDays ⟨today.year, today.month, 1⟩ 365 := by
  refine ⟨rfl, ?_, rfl, ?_, rfl, ?_, monthlyData_length _ _ _ _, rfl⟩
  · cases sQ <;> rfl
  · cases sQ <;> rfl
  · cases sQ <;> rfl

/-- C9 counterexample: with the unparsable month input (modelled as `none`),
`generate_monthly_report` does NOT return an error record — it computes a
full report whose window starts at the first of the current month minus 365
days. -/
theorem C9_monthly_no_error_counterexample :
    (generate_monthly_report 7 none ⟨2024, 5, 20⟩ 1 []).monthly_data.length = 1 ∧
      (generate_monthly_report 7 none ⟨2024, 5, 20⟩ 1 []).start_date =
        subDays ⟨2024, 5, 1⟩ 365 ∧
      (generate_monthly_report 7 none ⟨2024, 5, 20⟩ 1 []).months = 1 := by
  exact ⟨monthlyData_length _ _ _ _, rfl, rfl⟩
